import Mathlib

/-!
Shallow embedding of `tutor-contrib-newrelic`:
`tutornewrelic/newrelic/client.py` (the NerdGraph API client) and
`tutornewrelic/commands.py` (the `create_alert_workflow` orchestration).

HTTP traffic is modelled by passing in the `HttpResponse` the remote would
return for each request; JSON documents are the inductive `Json` type; Python
exceptions are the `PyError` type (`NerdGraphAPIError` raise sites keep their
payloads structurally).
-/

namespace TutorNewRelic

/-- JSON values, as decoded by `json.loads`. -/
inductive Json where
  | null : Json
  | bool : Bool → Json
  | num : Int → Json
  | str : String → Json
  | arr : List Json → Json
  | obj : List (String × Json) → Json

/-- Python exceptions that the embedded code can raise.  The four
`nerdGraph*` constructors are the `NerdGraphAPIError` raise sites of
`client.py`, keeping their payloads; the remaining constructors are the
built-in Python exceptions the navigation code can hit. -/
inductive PyError where
  | nerdGraphHttpError (text : String)
  | nerdGraphResponseError (payload : Json)
  | nerdGraphMutationError (payload : Json)
  | nerdGraphWorkflowExists
  | typeError
  | keyError (k : String)
  | attributeError
  | validationError

/-- Holds (as `true`) exactly for the `NerdGraphAPIError` raise sites (the spec's
`ProtocolError`). -/
def PyError.isNerdGraphError : PyError → Bool
  | .nerdGraphHttpError _ => true
  | .nerdGraphResponseError _ => true
  | .nerdGraphMutationError _ => true
  | .nerdGraphWorkflowExists => true
  | _ => false

/-- Model of the pydantic `Response` class of `client.py`: `id` and `name`. -/
structure Response where
  id : String
  name : String
  deriving DecidableEq

/-- Model of the pydantic `SyntheticsMonitorResponse` class: `Response` plus `uri`. -/
structure SyntheticsMonitorResponse where
  id : String
  name : String
  uri : String
  deriving DecidableEq

/-- An HTTP response as seen by `requests`: status code, raw text body, and
the JSON decoding of the body. -/
structure HttpResponse where
  status : Nat
  text : String
  body : Json

/-- Association-list lookup inside a JSON object (first binding wins, as in
a Python `dict` that was built without key duplication). -/
def Json.lookup (k : String) : List (String × Json) → Option Json
  | [] => none
  | (k', v) :: rest => if k' == k then some v else Json.lookup k rest

/-- Python `d[k]`: `KeyError` when the key is absent, `TypeError` when the
value is not a dict. -/
def pyGetItem (j : Json) (k : String) : Except PyError Json :=
  match j with
  | .obj fields =>
    match Json.lookup k fields with
    | some v => .ok v
    | none => .error (.keyError k)
  | _ => .error .typeError

/-- Python `d.get(k)`: `None` when the key is absent, `AttributeError` when
the value is not a dict. -/
def pyDictGet (j : Json) (k : String) : Except PyError Json :=
  match j with
  | .obj fields => .ok ((Json.lookup k fields).getD .null)
  | _ => .error .attributeError

/-- Python truthiness of a decoded JSON value. -/
def Json.truthy : Json → Bool
  | .null => false
  | .bool b => b
  | .num n => n != 0
  | .str s => !s.isEmpty
  | .arr xs => !xs.isEmpty
  | .obj fs => !fs.isEmpty

/-- Python `j == s` for a string `s`: equal strings, `False` for any
non-string value. -/
def jsonEqStr (j : Json) (s : String) : Bool :=
  match j with
  | .str v => v == s
  | _ => false

/-- Python `Response(id=i, name=n)`: pydantic validation requires both fields to be
strings. -/
def mkResponse (i n : Json) : Except PyError Response :=
  match i, n with
  | .str i, .str n => .ok ⟨i, n⟩
  | _, _ => .error .validationError

/-- Embeds `NewRelicClient.__send_request`, after the POST returned `resp`:
non-200 status raises with the raw text; a truthy top-level `"errors"`
field raises with the whole decoded body; otherwise the `"data"` field is
returned. -/
def sendRequest (resp : HttpResponse) : Except PyError Json := do
  if resp.status ≠ 200 then
    .error (.nerdGraphHttpError resp.text)
  else
    let errs ← pyDictGet resp.body "errors"
    if errs.truthy then
      .error (.nerdGraphResponseError resp.body)
    else
      pyGetItem resp.body "data"

/-- The `for entity in entities: if entity["name"] == name: return
Response(...)` loop shared by every `get_<kind>` method.  `idKey` is the
field the method reads the identifier from (`"id"`, or `"guid"` for
synthetics monitors). -/
def scanList (idKey name : String) : List Json → Except PyError (Option Response)
  | [] => .ok none
  | e :: rest => do
    let n ← pyGetItem e "name"
    if jsonEqStr n name then
      let i ← pyGetItem e idKey
      let n2 ← pyGetItem e "name"
      let r ← mkResponse i n2
      .ok (some r)
    else
      scanList idKey name rest

/-- Iterating the candidate list: a JSON array is iterated element-wise;
anything else is a `TypeError` for this code's purposes. -/
def scanEntries (idKey name : String) (j : Json) : Except PyError (Option Response) :=
  match j with
  | .arr items => scanList idKey name items
  | _ => .error .typeError

/-- Embeds `NewRelicClient.get_alert_policy`, applied to the HTTP response of its
search query. -/
def get_alert_policy (resp : HttpResponse) (name : String) :
    Except PyError (Option Response) := do
  let data ← sendRequest resp
  let actor ← pyGetItem data "actor"
  let account ← pyGetItem actor "account"
  let alerts ← pyGetItem account "alerts"
  let search ← pyGetItem alerts "policiesSearch"
  let policies ← pyGetItem search "policies"
  scanEntries "id" name policies

/-- Embeds `NewRelicClient.create_alert_policy`, applied to the HTTP response of
its mutation. -/
def create_alert_policy (resp : HttpResponse) (_name : String) :
    Except PyError Response := do
  let data ← sendRequest resp
  let r ← pyGetItem data "alertsPolicyCreate"
  let i ← pyGetItem r "id"
  let n ← pyGetItem r "name"
  mkResponse i n

/-- Embeds `NewRelicClient.get_synthetics_monitor`, applied to the HTTP response of
its entity-search query (identifier field is `guid`). -/
def get_synthetics_monitor (resp : HttpResponse) (name : String) :
    Except PyError (Option Response) := do
  let data ← sendRequest resp
  let actor ← pyGetItem data "actor"
  let search ← pyGetItem actor "entitySearch"
  let results ← pyGetItem search "results"
  let entities ← pyGetItem results "entities"
  scanEntries "guid" name entities

/-- Python `SyntheticsMonitorResponse(id=i, name=n, uri=uri)`. -/
def mkSynMonResponse (i n : Json) (uri : String) :
    Except PyError SyntheticsMonitorResponse :=
  match i, n with
  | .str i, .str n => .ok ⟨i, n, uri⟩
  | _, _ => .error .validationError

/-- Embeds `NewRelicClient.create_synthetics_monitor`, applied to the HTTP
response of its mutation.  Note the source checks `response.get("errors")`
on the `data` object itself, not inside `syntheticsCreateSimpleMonitor`. -/
def create_synthetics_monitor (resp : HttpResponse) (_name uri _period : String)
    (_locations : List String) : Except PyError SyntheticsMonitorResponse := do
  let data ← sendRequest resp
  let errs ← pyDictGet data "errors"
  if errs.truthy then
    .error (.nerdGraphMutationError data)
  else
    let r ← pyGetItem data "syntheticsCreateSimpleMonitor"
    let m ← pyGetItem r "monitor"
    let i ← pyGetItem m "id"
    let m2 ← pyGetItem r "monitor"
    let n ← pyGetItem m2 "name"
    mkSynMonResponse i n uri

/-- Embeds `NewRelicClient.get_alert_condition`: the lookup name is
`"Lost signal for <monitor_name>"`, built inside the method. -/
def get_alert_condition (resp : HttpResponse) (monitor_name : String) :
    Except PyError (Option Response) := do
  let conditionName := "Lost signal for " ++ monitor_name
  let data ← sendRequest resp
  let actor ← pyGetItem data "actor"
  let account ← pyGetItem actor "account"
  let alerts ← pyGetItem account "alerts"
  let search ← pyGetItem alerts "nrqlConditionsSearch"
  let conditions ← pyGetItem search "nrqlConditions"
  scanEntries "id" conditionName conditions

/-- Embeds `NewRelicClient.create_alert_condition`, applied to the HTTP response
of its mutation. -/
def create_alert_condition (resp : HttpResponse) (_monitor_name _uri _policy_id : String) :
    Except PyError Response := do
  let data ← sendRequest resp
  let r ← pyGetItem data "alertsNrqlConditionStaticCreate"
  let i ← pyGetItem r "id"
  let n ← pyGetItem r "name"
  mkResponse i n

/-- Embeds `NewRelicClient.get_notification_destination`. -/
def get_notification_destination (resp : HttpResponse) (name : String) :
    Except PyError (Option Response) := do
  let data ← sendRequest resp
  let actor ← pyGetItem data "actor"
  let account ← pyGetItem actor "account"
  let ai ← pyGetItem account "aiNotifications"
  let dests ← pyGetItem ai "destinations"
  let entities ← pyGetItem dests "entities"
  scanEntries "id" name entities

/-- Embeds `NewRelicClient.create_notification_destination`.  The source checks
`response.get("error")` on the `data` object itself, not inside
`aiNotificationsCreateDestination`. -/
def create_notification_destination (resp : HttpResponse) (_name _recipient : String) :
    Except PyError Response := do
  let data ← sendRequest resp
  let err ← pyDictGet data "error"
  if err.truthy then
    .error (.nerdGraphMutationError data)
  else
    let r ← pyGetItem data "aiNotificationsCreateDestination"
    let d ← pyGetItem r "destination"
    let i ← pyGetItem d "id"
    let d2 ← pyGetItem r "destination"
    let n ← pyGetItem d2 "name"
    mkResponse i n

/-- Embeds `NewRelicClient.get_notification_channel`. -/
def get_notification_channel (resp : HttpResponse) (name : String) :
    Except PyError (Option Response) := do
  let data ← sendRequest resp
  let actor ← pyGetItem data "actor"
  let account ← pyGetItem actor "account"
  let ai ← pyGetItem account "aiNotifications"
  let channels ← pyGetItem ai "channels"
  let entities ← pyGetItem channels "entities"
  scanEntries "id" name entities

/-- Embeds `NewRelicClient.create_notificaiton_channel` (source spelling). -/
def create_notificaiton_channel (resp : HttpResponse) (_name _destination_id : String) :
    Except PyError Response := do
  let data ← sendRequest resp
  let err ← pyDictGet data "error"
  if err.truthy then
    .error (.nerdGraphMutationError data)
  else
    let r ← pyGetItem data "aiNotificationsCreateChannel"
    let c ← pyGetItem r "channel"
    let i ← pyGetItem c "id"
    let c2 ← pyGetItem r "channel"
    let n ← pyGetItem c2 "name"
    mkResponse i n

/-- Embeds `NewRelicClient.get_ai_workflow`: the lookup name is
`"Alert intelligence workflow of <instance_name> instance"`. -/
def get_ai_workflow (resp : HttpResponse) (instance_name : String) :
    Except PyError (Option Response) := do
  let workflowName := "Alert intelligence workflow of " ++ instance_name ++ " instance"
  let data ← sendRequest resp
  let actor ← pyGetItem data "actor"
  let account ← pyGetItem actor "account"
  let ai ← pyGetItem account "aiWorkflows"
  let workflows ← pyGetItem ai "workflows"
  let entities ← pyGetItem workflows "entities"
  scanEntries "id" workflowName entities

/-- Embeds `NewRelicClient.create_ai_workflow`.  The source checks
`response.get("errors")` on the `data` object itself; a `None` workflow in
the mutation result raises `NerdGraphAPIError("A workflow with the given
name already exists")`. -/
def create_ai_workflow (resp : HttpResponse) (_instance_name _policy_id _channel_id : String) :
    Except PyError Response := do
  let data ← sendRequest resp
  let errs ← pyDictGet data "errors"
  if errs.truthy then
    .error (.nerdGraphMutationError data)
  else
    let r ← pyGetItem data "aiWorkflowsCreateWorkflow"
    let w ← pyGetItem r "workflow"
    match w with
    | .null => .error .nerdGraphWorkflowExists
    | _ => do
      let w1 ← pyGetItem r "workflow"
      let i ← pyGetItem w1 "id"
      let w2 ← pyGetItem r "workflow"
      let n ← pyGetItem w2 "name"
      mkResponse i n

/-- The client record built by `NewRelicClient.__init__`. -/
structure NewRelicClient where
  account_id : Int
  api_base_url : String
  api_key : String

/-- Python `str.lower()` (the ASCII case mapping, applied per character). -/
def pyLower (s : String) : String := ⟨s.data.map Char.toLower⟩

/-- Embeds `NewRelicClient.__init__`: region `"eu"` (case-insensitively) selects
the `.eu` API host; every `__send_request` posts to `api_base_url`. -/
def NewRelicClient.init (api_key : String) (account_id : Int) (region : String) :
    NewRelicClient :=
  let api_region := if pyLower region == "eu" then ".eu" else ""
  { account_id := account_id
    api_base_url := "https://api" ++ api_region ++ ".newrelic.com/graphql"
    api_key := api_key }

/-! ### Basic lemmas about the `Except` plumbing -/

theorem error_bind {α β : Type} (e : PyError) (f : α → Except PyError β) :
    (Except.error e >>= f) = Except.error e := rfl

theorem ok_bind {α β : Type} (a : α) (f : α → Except PyError β) :
    (Except.ok a >>= f) = f a := rfl

/-! ### Remote resources and search-query response bodies

The stub remote of the spec's testable properties holds one `Entry` per
resource; `extra` carries the creation-time attribute relevant to the kind
(a destination's recipient, a channel's destination id), and is not visible
through the search queries. -/

/-- One remote resource as the stub remote stores it. -/
structure Entry where
  id : String
  name : String
  extra : String
  deriving DecidableEq

/-- The JSON object a search query returns for one entry (`idKey` is
`"id"`, or `"guid"` for the synthetics entity search). -/
def entryJson (idKey : String) (e : Entry) : Json :=
  .obj [(idKey, .str e.id), ("name", .str e.name)]

/-- A search candidate list as JSON. -/
def entListJson (idKey : String) (l : List Entry) : Json :=
  .arr (l.map (entryJson idKey))

/-- The value every `get_<kind>` loop computes over a candidate list: the
first entry whose name matches exactly, or not-found. -/
def expectedFind (l : List Entry) (n : String) : Option Response :=
  (l.find? fun e => e.name == n).map fun e => { id := e.id, name := e.name }

/-- An HTTP 200 response whose body wraps `d` as the GraphQL `data`
field. -/
def ok200 (d : Json) : HttpResponse := ⟨200, "", .obj [("data", d)]⟩

/-- Response shape of the `policiesSearch` query. -/
def policySearchResp (l : List Entry) : HttpResponse :=
  ok200 (.obj [("actor", .obj [("account", .obj [("alerts",
    .obj [("policiesSearch", .obj [("policies", entListJson "id" l)])])])])])

/-- Response shape of the synthetics `entitySearch` query. -/
def monitorSearchResp (l : List Entry) : HttpResponse :=
  ok200 (.obj [("actor", .obj [("entitySearch", .obj [("results",
    .obj [("entities", entListJson "guid" l)])])])])

/-- Response shape of the `aiNotifications.destinations` query. -/
def destinationSearchResp (l : List Entry) : HttpResponse :=
  ok200 (.obj [("actor", .obj [("account", .obj [("aiNotifications",
    .obj [("destinations", .obj [("entities", entListJson "id" l)])])])])])

/-- Response shape of the `aiNotifications.channels` query. -/
def channelSearchResp (l : List Entry) : HttpResponse :=
  ok200 (.obj [("actor", .obj [("account", .obj [("aiNotifications",
    .obj [("channels", .obj [("entities", entListJson "id" l)])])])])])

/-- Response shape of the `aiWorkflows.workflows` query. -/
def workflowSearchResp (l : List Entry) : HttpResponse :=
  ok200 (.obj [("actor", .obj [("account", .obj [("aiWorkflows",
    .obj [("workflows", .obj [("entities", entListJson "id" l)])])])])])

/-- Response shape of the `nrqlConditionsSearch` query. -/
def conditionSearchResp (l : List Entry) : HttpResponse :=
  ok200 (.obj [("actor", .obj [("account", .obj [("alerts",
    .obj [("nrqlConditionsSearch", .obj [("nrqlConditions", entListJson "id" l)])])])])])

/-- The workflow name `get_ai_workflow`/`create_ai_workflow` build from the
instance name. -/
def workflowName (instance_name : String) : String :=
  "Alert intelligence workflow of " ++ instance_name ++ " instance"

/-- The condition name `get_alert_condition`/`create_alert_condition` build
from the monitor name. -/
def conditionName (monitor_name : String) : String :=
  "Lost signal for " ++ monitor_name

/-- The `get_<kind>` scanning loop over a well-formed candidate list
returns the first exact name match. -/
theorem scanList_entries (idKey n : String) (h : (idKey == "name") = false) :
    ∀ l : List Entry,
      scanList idKey n (l.map (entryJson idKey)) = .ok (expectedFind l n)
  | [] => rfl
  | e :: rest => by
    have hname : pyGetItem (entryJson idKey e) "name" = .ok (.str e.name) := by
      simp [pyGetItem, entryJson, Json.lookup, h]
    have hid : pyGetItem (entryJson idKey e) idKey = .ok (.str e.id) := by
      simp [pyGetItem, entryJson, Json.lookup]
    rw [List.map_cons]
    show (do
        let nv ← pyGetItem (entryJson idKey e) "name"
        if jsonEqStr nv n then do
          let i ← pyGetItem (entryJson idKey e) idKey
          let n2 ← pyGetItem (entryJson idKey e) "name"
          let r ← mkResponse i n2
          (.ok (some r) : Except PyError (Option Response))
        else
          scanList idKey n (rest.map (entryJson idKey))) = .ok (expectedFind (e :: rest) n)
    rw [hname, ok_bind]
    cases hc : e.name == n with
    | true =>
      simp only [jsonEqStr, hc, if_true, hid, hname, ok_bind, mkResponse]
      simp [expectedFind, List.find?_cons, hc]
    | false =>
      simp only [jsonEqStr, hc, Bool.false_eq_true, if_false]
      rw [scanList_entries idKey n h rest]
      simp [expectedFind, List.find?_cons, hc]

/-- Policy search parses to the first exact match. -/
theorem get_alert_policy_search (l : List Entry) (n : String) :
    get_alert_policy (policySearchResp l) n = .ok (expectedFind l n) := by
  show scanList "id" n (l.map (entryJson "id")) = .ok (expectedFind l n)
  exact scanList_entries "id" n rfl l

/-- Monitor entity search parses to the first exact match. -/
theorem get_synthetics_monitor_search (l : List Entry) (n : String) :
    get_synthetics_monitor (monitorSearchResp l) n = .ok (expectedFind l n) := by
  show scanList "guid" n (l.map (entryJson "guid")) = .ok (expectedFind l n)
  exact scanList_entries "guid" n rfl l

/-- Destination search parses to the first exact match. -/
theorem get_notification_destination_search (l : List Entry) (n : String) :
    get_notification_destination (destinationSearchResp l) n = .ok (expectedFind l n) := by
  show scanList "id" n (l.map (entryJson "id")) = .ok (expectedFind l n)
  exact scanList_entries "id" n rfl l

/-- Channel search parses to the first exact match. -/
theorem get_notification_channel_search (l : List Entry) (n : String) :
    get_notification_channel (channelSearchResp l) n = .ok (expectedFind l n) := by
  show scanList "id" n (l.map (entryJson "id")) = .ok (expectedFind l n)
  exact scanList_entries "id" n rfl l

/-- Workflow search parses to the first exact match of the constructed
workflow name. -/
theorem get_ai_workflow_search (l : List Entry) (n : String) :
    get_ai_workflow (workflowSearchResp l) n = .ok (expectedFind l (workflowName n)) := by
  show scanList "id" (workflowName n) (l.map (entryJson "id"))
      = .ok (expectedFind l (workflowName n))
  exact scanList_entries "id" (workflowName n) rfl l

/-- Condition search parses to the first exact match of the constructed
condition name. -/
theorem get_alert_condition_search (l : List Entry) (n : String) :
    get_alert_condition (conditionSearchResp l) n = .ok (expectedFind l (conditionName n)) := by
  show scanList "id" (conditionName n) (l.map (entryJson "id"))
      = .ok (expectedFind l (conditionName n))
  exact scanList_entries "id" (conditionName n) rfl l

/-! ### Claims settled at the level of single operations -/

/-- C3: for every resource kind and candidate list returned by its search
query, `get_<kind>` returns `none` when the list is empty or has no exact
name match, and otherwise the first exact match in list order (the final
conjunct spells out that `expectedFind` is `none` exactly when no entry's
name matches the requested name). -/
theorem claim_C3_get_first_exact_match :
    ∀ (l : List Entry) (n : String),
      get_alert_policy (policySearchResp l) n = .ok (expectedFind l n) ∧
      get_synthetics_monitor (monitorSearchResp l) n = .ok (expectedFind l n) ∧
      get_notification_destination (destinationSearchResp l) n = .ok (expectedFind l n) ∧
      get_notification_channel (channelSearchResp l) n = .ok (expectedFind l n) ∧
      get_ai_workflow (workflowSearchResp l) n = .ok (expectedFind l (workflowName n)) ∧
      get_alert_condition (conditionSearchResp l) n = .ok (expectedFind l (conditionName n)) ∧
      (expectedFind l n = none ↔ ∀ e ∈ l, e.name ≠ n) := by
  intro l n
  refine ⟨get_alert_policy_search l n, get_synthetics_monitor_search l n,
    get_notification_destination_search l n, get_notification_channel_search l n,
    get_ai_workflow_search l n, get_alert_condition_search l n, ?_⟩
  simp [expectedFind, List.find?_eq_none]

/-- C5: the transport raises `NerdGraphAPIError` carrying the raw response
text whenever the HTTP status is not the success status 200, and under a
200 status with no (truthy) top-level error payload it returns exactly the
`"data"` field of the decoded body. -/
theorem claim_C5_transport_status :
    ∀ (resp : HttpResponse),
      (resp.status ≠ 200 → sendRequest resp = .error (.nerdGraphHttpError resp.text)) ∧
      (∀ (fields : List (String × Json)) (d : Json),
        resp.status = 200 → resp.body = .obj fields →
        ((Json.lookup "errors" fields).getD .null).truthy = false →
        Json.lookup "data" fields = some d →
        sendRequest resp = .ok d) := by
  intro resp
  constructor
  · intro h
    unfold sendRequest
    rw [if_pos h]
  · intro fields d h200 hbody herrs hdata
    unfold sendRequest
    rw [if_neg (by simp [h200]), hbody]
    simp only [pyDictGet, ok_bind, herrs, Bool.false_eq_true, if_false, pyGetItem, hdata]

/-- Witness for C5 at concrete inputs: an HTTP 500 raises with the raw
body text, and a clean 200 returns the `data` field. -/
theorem claim_C5_transport_status_witness :
    sendRequest ⟨500, "boom", .null⟩ = .error (.nerdGraphHttpError "boom") ∧
    sendRequest ⟨200, "x", .obj [("data", .num 1)]⟩ = .ok (.num 1) :=
  ⟨(claim_C5_transport_status ⟨500, "boom", .null⟩).1 (by decide),
   (claim_C5_transport_status ⟨200, "x", .obj [("data", .num 1)]⟩).2
     [("data", .num 1)] (.num 1) rfl rfl rfl rfl⟩

/-- Counterexample to C6: a decoded 200 response whose top-level `"errors"`
field is an **empty** list does not raise — `response.get("errors")` is
falsy for `[]` — and the `"data"` field is returned instead, while the
claim demands `ProtocolError` for any response containing the field. -/
theorem claim_C6_counterexample :
    (⟨200, "", .obj [("errors", .arr []), ("data", .obj [("ok", .null)])]⟩ :
        HttpResponse).body = .obj [("errors", .arr []), ("data", .obj [("ok", .null)])] ∧
    Json.lookup "errors" [("errors", .arr []), ("data", .obj [("ok", .null)])]
      = some (.arr []) ∧
    sendRequest ⟨200, "", .obj [("errors", .arr []), ("data", .obj [("ok", .null)])]⟩
      = .ok (.obj [("ok", .null)]) :=
  ⟨rfl, rfl, rfl⟩

/-- C6 (amended): the transport raises `NerdGraphAPIError` carrying the
full decoded payload exactly when the top-level `"errors"` field is present
and truthy (in particular non-empty); an empty list does not trigger it. -/
theorem claim_C6_amended_truthy_errors :
    ∀ (t : String) (fields : List (String × Json)) (e : Json),
      Json.lookup "errors" fields = some e → e.truthy = true →
      sendRequest ⟨200, t, .obj fields⟩ = .error (.nerdGraphResponseError (.obj fields)) := by
  intro t fields e hlook htruthy
  unfold sendRequest
  rw [if_neg (by simp)]
  simp only [pyDictGet, ok_bind, hlook, Option.getD_some, htruthy, if_true]

/-- Witness for the amended C6 at a concrete non-empty error payload. -/
theorem claim_C6_amended_truthy_errors_witness :
    sendRequest ⟨200, "t", .obj [("errors", .arr [.str "bad"])]⟩
      = .error (.nerdGraphResponseError (.obj [("errors", .arr [.str "bad"])])) :=
  claim_C6_amended_truthy_errors "t" [("errors", .arr [.str "bad"])]
    (.arr [.str "bad"]) rfl rfl

/-- C7: constructing the client with region `"EU"`/`"eu"` (and any value
lowering to `"eu"`) points `api_base_url` — the URL every
`__send_request` posts to — at the EU host; any other region value,
including the empty string, selects the default host. -/
theorem claim_C7_region_selection :
    ∀ (k : String) (a : Int),
      (NewRelicClient.init k a "EU").api_base_url = "https://api.eu.newrelic.com/graphql" ∧
      (NewRelicClient.init k a "eu").api_base_url = "https://api.eu.newrelic.com/graphql" ∧
      (NewRelicClient.init k a "").api_base_url = "https://api.newrelic.com/graphql" ∧
      (∀ region : String, pyLower region = "eu" →
        (NewRelicClient.init k a region).api_base_url
          = "https://api.eu.newrelic.com/graphql") ∧
      (∀ region : String, pyLower region ≠ "eu" →
        (NewRelicClient.init k a region).api_base_url
          = "https://api.newrelic.com/graphql") := by
  intro k a
  refine ⟨rfl, rfl, rfl, ?_, ?_⟩
  · intro region h
    simp [NewRelicClient.init, h]
  · intro region h
    simp [NewRelicClient.init, beq_eq_false_iff_ne.mpr h]

/-- Witness for C7 at concrete inputs: mixed case selects the EU host and
an unrelated region selects the default host. -/
theorem claim_C7_region_selection_witness :
    (NewRelicClient.init "k" 1 "Eu").api_base_url = "https://api.eu.newrelic.com/graphql" ∧
    (NewRelicClient.init "k" 1 "US").api_base_url = "https://api.newrelic.com/graphql" :=
  ⟨(claim_C7_region_selection "k" 1).2.2.2.1 "Eu" (by decide),
   (claim_C7_region_selection "k" 1).2.2.2.2 "US" (by decide)⟩

/-- Helper: a successfully validated `SyntheticsMonitorResponse` carries
the `uri` it was constructed with. -/
theorem mkSynMonResponse_uri {i n : Json} {uri : String}
    {r : SyntheticsMonitorResponse} (h : mkSynMonResponse i n uri = .ok r) :
    r.uri = uri := by
  cases i <;> cases n <;> simp_all [mkSynMonResponse]
  rw [← h]

/-- C10: whenever `create_synthetics_monitor` returns a result, its `uri`
field is the `uri` argument echoed back, independently of the remote
response's content. -/
theorem claim_C10_monitor_uri_echoed :
    ∀ (resp : HttpResponse) (name uri period : String) (locations : List String)
      (r : SyntheticsMonitorResponse),
      create_synthetics_monitor resp name uri period locations = .ok r → r.uri = uri := by
  intro resp name uri period locations r h
  unfold create_synthetics_monitor at h
  cases hs : sendRequest resp with
  | error e => rw [hs, error_bind] at h; exact absurd h (by simp)
  | ok data =>
    rw [hs, ok_bind] at h
    cases hg : pyDictGet data "errors" with
    | error e => rw [hg, error_bind] at h; exact absurd h (by simp)
    | ok errs =>
      rw [hg, ok_bind] at h
      split at h
      · exact absurd h (by simp)
      · cases h1 : pyGetItem data "syntheticsCreateSimpleMonitor" with
        | error e => rw [h1, error_bind] at h; exact absurd h (by simp)
        | ok rr =>
          rw [h1, ok_bind] at h
          cases h2 : pyGetItem rr "monitor" with
          | error e => rw [h2, error_bind] at h; exact absurd h (by simp)
          | ok m =>
            rw [h2, ok_bind] at h
            cases h3 : pyGetItem m "id" with
            | error e => rw [h3, error_bind] at h; exact absurd h (by simp)
            | ok i =>
              rw [h3, ok_bind, ok_bind] at h
              cases h4 : pyGetItem m "name" with
              | error e => rw [h4, error_bind] at h; exact absurd h (by simp)
              | ok nm =>
                rw [h4, ok_bind] at h
                exact mkSynMonResponse_uri h

/-- Witness for C10: at a concrete successful creation response the
returned record's `uri` is the input uri. -/
theorem claim_C10_monitor_uri_echoed_witness :
    ({ id := "m1", name := "u", uri := "https://u" } : SyntheticsMonitorResponse).uri
      = "https://u" :=
  claim_C10_monitor_uri_echoed
    (ok200 (.obj [("syntheticsCreateSimpleMonitor",
      .obj [("monitor", .obj [("id", .str "m1"), ("name", .str "u")])])]))
    "u" "https://u" "EVERY_5_MINUTES" ["AWS_US_EAST_1"]
    ⟨"m1", "u", "https://u"⟩ rfl

/-- A `create_synthetics_monitor` mutation result that embeds a non-empty
`errors` payload next to a non-null monitor object. -/
def monitorPartialSuccessResp : HttpResponse :=
  ok200 (.obj [("syntheticsCreateSimpleMonitor",
    .obj [("monitor", .obj [("id", .str "m1"), ("name", .str "mon")]),
          ("errors", .arr [.obj [("description", .str "boom"), ("type", .str "SIMPLE")]])])])

/-- A `create_notification_destination` mutation result that embeds a
non-null `error` payload next to a non-null destination object. -/
def destPartialSuccessResp : HttpResponse :=
  ok200 (.obj [("aiNotificationsCreateDestination",
    .obj [("destination", .obj [("id", .str "d1"), ("name", .str "dn")]),
          ("error", .obj [("__typename", .str "AiNotificationsError")])])])

/-- A `create_ai_workflow` mutation result that embeds a non-empty
`errors` payload next to a non-null workflow object. -/
def workflowPartialSuccessResp : HttpResponse :=
  ok200 (.obj [("aiWorkflowsCreateWorkflow",
    .obj [("workflow", .obj [("id", .str "w1"), ("name", .str "wf")]),
          ("errors", .arr [.obj [("description", .str "bad"), ("type", .str "VALIDATION_ERROR")]])])])

/-- C1 fails on the code: each create operation checks
`response.get("errors")` / `response.get("error")` on the top-level `data`
object, where GraphQL never places the mutation's embedded error payload,
so an HTTP-success response whose mutation result object carries a
non-empty error payload is returned as a `Resource` instead of raising
`NerdGraphAPIError`.  This theorem evaluates the code at such responses. -/
theorem claim_C1_embedded_errors_ignored :
    create_synthetics_monitor monitorPartialSuccessResp
        "mon" "https://u" "EVERY_5_MINUTES" ["AWS_US_EAST_1"]
      = .ok ⟨"m1", "mon", "https://u"⟩ ∧
    create_notification_destination destPartialSuccessResp "dn" "a@b.com"
      = .ok ⟨"d1", "dn"⟩ ∧
    create_ai_workflow workflowPartialSuccessResp "demo" "p1" "c1"
      = .ok ⟨"w1", "wf"⟩ :=
  ⟨rfl, rfl, rfl⟩

/-- C4: a create-workflow response with HTTP success, a null `workflow`
object and a non-truthy error payload raises the name-collision
`NerdGraphAPIError` and never returns a `Resource`. -/
theorem claim_C4_null_workflow_raises :
    ∀ (errs : Json) (t instName pid cid : String),
      errs.truthy = false →
      create_ai_workflow
        ⟨200, t, .obj [("data", .obj [("aiWorkflowsCreateWorkflow",
          .obj [("workflow", .null), ("errors", errs)])])]⟩ instName pid cid
        = .error .nerdGraphWorkflowExists := by
  intro errs t instName pid cid _
  rfl

/-- Witness for C4 at a concrete empty error array. -/
theorem claim_C4_null_workflow_raises_witness :
    create_ai_workflow
      ⟨200, "t", .obj [("data", .obj [("aiWorkflowsCreateWorkflow",
        .obj [("workflow", .null), ("errors", .arr [])])])]⟩ "demo" "p1" "c1"
      = .error .nerdGraphWorkflowExists :=
  claim_C4_null_workflow_raises (.arr []) "t" "demo" "p1" "c1" rfl

/-! ### The orchestration `create_alert_workflow` of `commands.py`

The remote is abstracted as `step : σ → Req → σ × HttpResponse`: the
semantic request issued by each client method, and the HTTP response the
remote answers with.  `StepOut` threads the remote state, an event trace
(one event per get/create operation performed) and the Python result. -/

/-- The twelve request kinds the client issues, with the arguments the
calling method sends as GraphQL variables. -/
inductive Req where
  | getPolicy (name : String)
  | createPolicy (name : String)
  | getMonitor (name : String)
  | createMonitor (name uri period : String) (locations : List String)
  | getCondition (monitorName : String)
  | createCondition (monitorName uri policyId : String)
  | getDestination (name : String)
  | createDestination (name recipient : String)
  | getChannel (name : String)
  | createChannel (name destinationId : String)
  | getWorkflow (instanceName : String)
  | createWorkflow (instanceName policyId channelId : String)
  deriving DecidableEq

/-- One performed operation: a lookup (with its outcome), a creation, or
either of the two aborting with an exception. -/
inductive Ev where
  | get (r : Req) (found : Bool)
  | getFailed (r : Req)
  | create (r : Req)
  | createFailed (r : Req)
  deriving DecidableEq

/-- An event is a create operation (attempted or completed). -/
def Ev.isCreate : Ev → Bool
  | .create _ => true
  | .createFailed _ => true
  | _ => false

/-- An event is a lookup that succeeded in finding its resource. -/
def Ev.isFoundGet : Ev → Bool
  | .get _ found => found
  | _ => false

/-- Outcome of a (partial) orchestration run: final remote state, event
trace, and result. -/
structure StepOut (σ α : Type) where
  remote : σ
  trace : List Ev
  result : Except PyError α

/-- The `if (policy := client.get_alert_policy(name)) is None: policy =
client.create_alert_policy(name)` step of `commands.py`. -/
def ensurePolicy {σ : Type} (step : σ → Req → σ × HttpResponse) (name : String) (s : σ) :
    StepOut σ Response :=
  let (s1, resp) := step s (.getPolicy name)
  match get_alert_policy resp name with
  | .error e => ⟨s1, [.getFailed (.getPolicy name)], .error e⟩
  | .ok (some p) => ⟨s1, [.get (.getPolicy name) true], .ok p⟩
  | .ok none =>
    let (s2, resp2) := step s1 (.createPolicy name)
    match create_alert_policy resp2 name with
    | .error e => ⟨s2, [.get (.getPolicy name) false, .createFailed (.createPolicy name)], .error e⟩
    | .ok p => ⟨s2, [.get (.getPolicy name) false, .create (.createPolicy name)], .ok p⟩

/-- The synthetics-monitor get-or-create step; the orchestration consumes
only `monitor.name` afterwards, which is what this returns. -/
def ensureMonitor {σ : Type} (step : σ → Req → σ × HttpResponse)
    (url period location : String) (s : σ) : StepOut σ String :=
  let (s1, resp) := step s (.getMonitor url)
  match get_synthetics_monitor resp url with
  | .error e => ⟨s1, [.getFailed (.getMonitor url)], .error e⟩
  | .ok (some m) => ⟨s1, [.get (.getMonitor url) true], .ok m.name⟩
  | .ok none =>
    let req := Req.createMonitor url url period [location]
    let (s2, resp2) := step s1 req
    match create_synthetics_monitor resp2 url url period [location] with
    | .error e => ⟨s2, [.get (.getMonitor url) false, .createFailed req], .error e⟩
    | .ok m => ⟨s2, [.get (.getMonitor url) false, .create req], .ok m.name⟩

/-- The alert-condition get-or-create step (the created condition's value
is discarded by the orchestration). -/
def ensureCondition {σ : Type} (step : σ → Req → σ × HttpResponse)
    (monitorName uri policyId : String) (s : σ) : StepOut σ Unit :=
  let (s1, resp) := step s (.getCondition monitorName)
  match get_alert_condition resp monitorName with
  | .error e => ⟨s1, [.getFailed (.getCondition monitorName)], .error e⟩
  | .ok (some _) => ⟨s1, [.get (.getCondition monitorName) true], .ok ()⟩
  | .ok none =>
    let req := Req.createCondition monitorName uri policyId
    let (s2, resp2) := step s1 req
    match create_alert_condition resp2 monitorName uri policyId with
    | .error e => ⟨s2, [.get (.getCondition monitorName) false, .createFailed req], .error e⟩
    | .ok _ => ⟨s2, [.get (.getCondition monitorName) false, .create req], .ok ()⟩

/-- The notification-destination get-or-create step. -/
def ensureDestination {σ : Type} (step : σ → Req → σ × HttpResponse)
    (name recipient : String) (s : σ) : StepOut σ Response :=
  let (s1, resp) := step s (.getDestination name)
  match get_notification_destination resp name with
  | .error e => ⟨s1, [.getFailed (.getDestination name)], .error e⟩
  | .ok (some d) => ⟨s1, [.get (.getDestination name) true], .ok d⟩
  | .ok none =>
    let req := Req.createDestination name recipient
    let (s2, resp2) := step s1 req
    match create_notification_destination resp2 name recipient with
    | .error e => ⟨s2, [.get (.getDestination name) false, .createFailed req], .error e⟩
    | .ok d => ⟨s2, [.get (.getDestination name) false, .create req], .ok d⟩

/-- The notification-channel get-or-create step. -/
def ensureChannel {σ : Type} (step : σ → Req → σ × HttpResponse)
    (name destinationId : String) (s : σ) : StepOut σ Response :=
  let (s1, resp) := step s (.getChannel name)
  match get_notification_channel resp name with
  | .error e => ⟨s1, [.getFailed (.getChannel name)], .error e⟩
  | .ok (some c) => ⟨s1, [.get (.getChannel name) true], .ok c⟩
  | .ok none =>
    let req := Req.createChannel name destinationId
    let (s2, resp2) := step s1 req
    match create_notificaiton_channel resp2 name destinationId with
    | .error e => ⟨s2, [.get (.getChannel name) false, .createFailed req], .error e⟩
    | .ok c => ⟨s2, [.get (.getChannel name) false, .create req], .ok c⟩

/-- The applied-intelligence-workflow get-or-create step. -/
def ensureWorkflow {σ : Type} (step : σ → Req → σ × HttpResponse)
    (instanceName policyId channelId : String) (s : σ) : StepOut σ Response :=
  let (s1, resp) := step s (.getWorkflow instanceName)
  match get_ai_workflow resp instanceName with
  | .error e => ⟨s1, [.getFailed (.getWorkflow instanceName)], .error e⟩
  | .ok (some w) => ⟨s1, [.get (.getWorkflow instanceName) true], .ok w⟩
  | .ok none =>
    let req := Req.createWorkflow instanceName policyId channelId
    let (s2, resp2) := step s1 req
    match create_ai_workflow resp2 instanceName policyId channelId with
    | .error e => ⟨s2, [.get (.getWorkflow instanceName) false, .createFailed req], .error e⟩
    | .ok w => ⟨s2, [.get (.getWorkflow instanceName) false, .create req], .ok w⟩

/-- One monitor configuration of `NEWRELIC_SYNTHETICS_MONITORS`: a
recipient email and the URLs to monitor. -/
structure MonitorConfig where
  recipient : String
  urls : List String
  deriving DecidableEq

/-- The configuration values `create_alert_workflow` reads from the loaded
Tutor config. -/
structure OrchConfig where
  instance_name : String
  monitors : List MonitorConfig
  period : String
  location : String
  deriving DecidableEq

/-- The inner `for url in monitor_config["urls"]` loop of `commands.py`:
get-or-create the monitor, then get-or-create its lost-signal condition. -/
def processUrls {σ : Type} (step : σ → Req → σ × HttpResponse)
    (period location policyId : String) : List String → σ → StepOut σ Unit
  | [], s => ⟨s, [], .ok ()⟩
  | url :: rest, s =>
    let o1 := ensureMonitor step url period location s
    match o1.result with
    | .error e => ⟨o1.remote, o1.trace, .error e⟩
    | .ok monitorName =>
      let o2 := ensureCondition step monitorName url policyId o1.remote
      match o2.result with
      | .error e => ⟨o2.remote, o1.trace ++ o2.trace, .error e⟩
      | .ok _ =>
        let o3 := processUrls step period location policyId rest o2.remote
        ⟨o3.remote, o1.trace ++ o2.trace ++ o3.trace, o3.result⟩

/-- The destination/channel name `commands.py` builds from the instance
name (the same string is used for both resources). -/
def destName (instanceName : String) : String :=
  "Default notification channel for " ++ instanceName

/-- The outer `for monitor_config in ...` loop of `commands.py`:
destination, channel, workflow, then the URL loop. -/
def processMonitorConfigs {σ : Type} (step : σ → Req → σ × HttpResponse)
    (instanceName policyId period location : String) :
    List MonitorConfig → σ → StepOut σ Unit
  | [], s => ⟨s, [], .ok ()⟩
  | mc :: rest, s =>
    let o1 := ensureDestination step (destName instanceName) mc.recipient s
    match o1.result with
    | .error e => ⟨o1.remote, o1.trace, .error e⟩
    | .ok dest =>
      let o2 := ensureChannel step (destName instanceName) dest.id o1.remote
      match o2.result with
      | .error e => ⟨o2.remote, o1.trace ++ o2.trace, .error e⟩
      | .ok chan =>
        let o3 := ensureWorkflow step instanceName policyId chan.id o2.remote
        match o3.result with
        | .error e => ⟨o3.remote, o1.trace ++ o2.trace ++ o3.trace, .error e⟩
        | .ok _ =>
          let o4 := processUrls step period location policyId mc.urls o3.remote
          match o4.result with
          | .error e => ⟨o4.remote, o1.trace ++ o2.trace ++ o3.trace ++ o4.trace, .error e⟩
          | .ok _ =>
            let o5 := processMonitorConfigs step instanceName policyId period location
              rest o4.remote
            ⟨o5.remote, o1.trace ++ o2.trace ++ o3.trace ++ o4.trace ++ o5.trace, o5.result⟩

/-- Python `str.title()` over a character list: a letter after a
non-letter is uppercased, a letter after a letter lowercased, non-letters
pass through. -/
def pyTitleAux : List Char → Bool → List Char
  | [], _ => []
  | c :: rest, prevAlpha =>
    if c.isAlpha then
      (if prevAlpha then c.toLower else c.toUpper) :: pyTitleAux rest true
    else
      c :: pyTitleAux rest false

/-- Python `str.title()` (ASCII semantics). -/
def pyTitle (s : String) : String := ⟨pyTitleAux s.data false⟩

/-- The alert-policy name `commands.py` builds from the instance name. -/
def policyName (instanceName : String) : String :=
  pyTitle instanceName ++ " - Open edX Instance"

/-- Embeds the `create_alert_workflow` command of `commands.py`: ensure
the policy, then run the monitor-config loop with its id. -/
def create_alert_workflow {σ : Type} (step : σ → Req → σ × HttpResponse)
    (cfg : OrchConfig) (s : σ) : StepOut σ Unit :=
  let o1 := ensurePolicy step (policyName cfg.instance_name) s
  match o1.result with
  | .error e => ⟨o1.remote, o1.trace, .error e⟩
  | .ok policy =>
    let o2 := processMonitorConfigs step cfg.instance_name policy.id cfg.period cfg.location
      cfg.monitors o1.remote
    ⟨o2.remote, o1.trace ++ o2.trace, o2.result⟩

/-! ### The stub remote: remembers created names, answers searches with
the exact-name matches it stored. -/

/-- State of the stub remote: one entry list per resource kind plus a
fresh-id counter.  `extra` stores the creation attribute of interest
(destination recipient, channel destination id, condition/workflow policy
id, monitor uri). -/
structure StubState where
  policies : List Entry
  monitors : List Entry
  destinations : List Entry
  channels : List Entry
  workflows : List Entry
  conditions : List Entry
  counter : Nat
  deriving DecidableEq

/-- The stub remote with no pre-existing resources. -/
def emptyStub : StubState := ⟨[], [], [], [], [], [], 0⟩

/-- Identifier the stub assigns to the next created resource. -/
def freshId (c : Nat) : String := "id" ++ toString c

/-- The entries of a kind whose name matches a search exactly. -/
def matching (l : List Entry) (n : String) : List Entry :=
  l.filter fun e => e.name == n

/-- The stub remote's behaviour: lookups answer with the stored
exact-name matches, creations append a fresh entry and answer with the
created object's id and name in the shape of the corresponding mutation
response. -/
def stubStep : StubState → Req → StubState × HttpResponse
  | s, .getPolicy n => (s, policySearchResp (matching s.policies n))
  | s, .createPolicy n =>
    ({ s with policies := s.policies ++ [⟨freshId s.counter, n, ""⟩],
              counter := s.counter + 1 },
     ok200 (.obj [("alertsPolicyCreate",
       .obj [("id", .str (freshId s.counter)), ("name", .str n)])]))
  | s, .getMonitor n => (s, monitorSearchResp (matching s.monitors n))
  | s, .createMonitor n uri _period _locs =>
    ({ s with monitors := s.monitors ++ [⟨freshId s.counter, n, uri⟩],
              counter := s.counter + 1 },
     ok200 (.obj [("syntheticsCreateSimpleMonitor", .obj [("monitor",
       .obj [("id", .str (freshId s.counter)), ("name", .str n)])])]))
  | s, .getCondition mn => (s, conditionSearchResp (matching s.conditions (conditionName mn)))
  | s, .createCondition mn _uri pid =>
    ({ s with conditions := s.conditions ++ [⟨freshId s.counter, conditionName mn, pid⟩],
              counter := s.counter + 1 },
     ok200 (.obj [("alertsNrqlConditionStaticCreate",
       .obj [("id", .str (freshId s.counter)), ("name", .str (conditionName mn))])]))
  | s, .getDestination n => (s, destinationSearchResp (matching s.destinations n))
  | s, .createDestination n rcpt =>
    ({ s with destinations := s.destinations ++ [⟨freshId s.counter, n, rcpt⟩],
              counter := s.counter + 1 },
     ok200 (.obj [("aiNotificationsCreateDestination", .obj [("destination",
       .obj [("id", .str (freshId s.counter)), ("name", .str n)])])]))
  | s, .getChannel n => (s, channelSearchResp (matching s.channels n))
  | s, .createChannel n did =>
    ({ s with channels := s.channels ++ [⟨freshId s.counter, n, did⟩],
              counter := s.counter + 1 },
     ok200 (.obj [("aiNotificationsCreateChannel", .obj [("channel",
       .obj [("id", .str (freshId s.counter)), ("name", .str n)])])]))
  | s, .getWorkflow inst => (s, workflowSearchResp (matching s.workflows (workflowName inst)))
  | s, .createWorkflow inst pid cid =>
    ({ s with workflows := s.workflows ++ [⟨freshId s.counter, workflowName inst, pid ++ "/" ++ cid⟩],
              counter := s.counter + 1 },
     ok200 (.obj [("aiWorkflowsCreateWorkflow", .obj [("workflow",
       .obj [("id", .str (freshId s.counter)), ("name", .str (workflowName inst))])])]))

/-- A remote that behaves like `stubStep` except that creating a
notification destination fails at the HTTP layer with a 500. -/
def stubStepFailDestination (s : StubState) (r : Req) : StubState × HttpResponse :=
  match r with
  | .createDestination _ _ => (s, ⟨500, "Internal Server Error", .null⟩)
  | _ => stubStep s r

/-- A remote that behaves like `stubStep` except that creating a
notification destination returns HTTP 200 with a top-level GraphQL
`errors` array. -/
def stubStepErrorsDestination (s : StubState) (r : Req) : StubState × HttpResponse :=
  match r with
  | .createDestination _ _ =>
    (s, ⟨200, "err", .obj [("errors", .arr [.obj [("message", .str "boom")]])]⟩)
  | _ => stubStep s r

/-! ### Characterising the stub remote's answers -/

/-- Searching the exact-name matches finds the same first entry as
searching the whole list. -/
theorem find?_filter_name (l : List Entry) (n : String) :
    ((matching l n).find? fun e => e.name == n) = l.find? fun e => e.name == n := by
  unfold matching
  rw [List.find?_filter]
  congr 1
  funext e
  cases hc : e.name == n
  · simp [beq_eq_false_iff_ne.mp hc]
  · simp [eq_of_beq hc]

/-- Scanning the stub's filtered candidate list gives the same outcome as
scanning everything the stub stores for the kind. -/
theorem expectedFind_matching (l : List Entry) (n : String) :
    expectedFind (matching l n) n = expectedFind l n := by
  unfold expectedFind
  rw [find?_filter_name]

theorem get_alert_policy_stub (l : List Entry) (n : String) :
    get_alert_policy (policySearchResp (matching l n)) n = .ok (expectedFind l n) := by
  rw [get_alert_policy_search, expectedFind_matching]

theorem get_synthetics_monitor_stub (l : List Entry) (n : String) :
    get_synthetics_monitor (monitorSearchResp (matching l n)) n = .ok (expectedFind l n) := by
  rw [get_synthetics_monitor_search, expectedFind_matching]

theorem get_notification_destination_stub (l : List Entry) (n : String) :
    get_notification_destination (destinationSearchResp (matching l n)) n
      = .ok (expectedFind l n) := by
  rw [get_notification_destination_search, expectedFind_matching]

theorem get_notification_channel_stub (l : List Entry) (n : String) :
    get_notification_channel (channelSearchResp (matching l n)) n
      = .ok (expectedFind l n) := by
  rw [get_notification_channel_search, expectedFind_matching]

theorem get_ai_workflow_stub (l : List Entry) (n : String) :
    get_ai_workflow (workflowSearchResp (matching l (workflowName n))) n
      = .ok (expectedFind l (workflowName n)) := by
  rw [get_ai_workflow_search, expectedFind_matching]

theorem get_alert_condition_stub (l : List Entry) (n : String) :
    get_alert_condition (conditionSearchResp (matching l (conditionName n))) n
      = .ok (expectedFind l (conditionName n)) := by
  rw [get_alert_condition_search, expectedFind_matching]

theorem create_alert_policy_stub (i n m : String) :
    create_alert_policy (ok200 (.obj [("alertsPolicyCreate",
      .obj [("id", .str i), ("name", .str n)])])) m = .ok ⟨i, n⟩ := rfl

theorem create_synthetics_monitor_stub (i n m uri period : String) (locs : List String) :
    create_synthetics_monitor (ok200 (.obj [("syntheticsCreateSimpleMonitor",
      .obj [("monitor", .obj [("id", .str i), ("name", .str n)])])])) m uri period locs
      = .ok ⟨i, n, uri⟩ := rfl

theorem create_alert_condition_stub (i n m uri pid : String) :
    create_alert_condition (ok200 (.obj [("alertsNrqlConditionStaticCreate",
      .obj [("id", .str i), ("name", .str n)])])) m uri pid = .ok ⟨i, n⟩ := rfl

theorem create_notification_destination_stub (i n m rcpt : String) :
    create_notification_destination (ok200 (.obj [("aiNotificationsCreateDestination",
      .obj [("destination", .obj [("id", .str i), ("name", .str n)])])])) m rcpt
      = .ok ⟨i, n⟩ := rfl

theorem create_notificaiton_channel_stub (i n m did : String) :
    create_notificaiton_channel (ok200 (.obj [("aiNotificationsCreateChannel",
      .obj [("channel", .obj [("id", .str i), ("name", .str n)])])])) m did
      = .ok ⟨i, n⟩ := rfl

theorem create_ai_workflow_stub (i n m pid cid : String) :
    create_ai_workflow (ok200 (.obj [("aiWorkflowsCreateWorkflow",
      .obj [("workflow", .obj [("id", .str i), ("name", .str n)])])])) m pid cid
      = .ok ⟨i, n⟩ := rfl

/-! ### Effect of each get-or-create step on the stub -/

theorem ensurePolicy_stub (n : String) (s : StubState) :
    ensurePolicy stubStep n s =
      match s.policies.find? fun e => e.name == n with
      | some e => ⟨s, [.get (.getPolicy n) true], .ok ⟨e.id, e.name⟩⟩
      | none =>
        ⟨{ s with policies := s.policies ++ [⟨freshId s.counter, n, ""⟩],
                  counter := s.counter + 1 },
         [.get (.getPolicy n) false, .create (.createPolicy n)],
         .ok ⟨freshId s.counter, n⟩⟩ := by
  unfold ensurePolicy
  simp only [stubStep, get_alert_policy_stub]
  cases hf : s.policies.find? fun e => e.name == n with
  | some e => simp [expectedFind, hf]
  | none => simp [expectedFind, hf, stubStep, create_alert_policy_stub]

theorem ensureMonitor_stub (url period location : String) (s : StubState) :
    ensureMonitor stubStep url period location s =
      match s.monitors.find? fun e => e.name == url with
      | some e => ⟨s, [.get (.getMonitor url) true], .ok e.name⟩
      | none =>
        ⟨{ s with monitors := s.monitors ++ [⟨freshId s.counter, url, url⟩],
                  counter := s.counter + 1 },
         [.get (.getMonitor url) false, .create (.createMonitor url url period [location])],
         .ok url⟩ := by
  unfold ensureMonitor
  simp only [stubStep, get_synthetics_monitor_stub]
  cases hf : s.monitors.find? fun e => e.name == url with
  | some e => simp [expectedFind, hf]
  | none => simp [expectedFind, hf, stubStep, create_synthetics_monitor_stub]

theorem ensureCondition_stub (mn uri pid : String) (s : StubState) :
    ensureCondition stubStep mn uri pid s =
      match s.conditions.find? fun e => e.name == conditionName mn with
      | some _ => ⟨s, [.get (.getCondition mn) true], .ok ()⟩
      | none =>
        ⟨{ s with conditions := s.conditions ++ [⟨freshId s.counter, conditionName mn, pid⟩],
                  counter := s.counter + 1 },
         [.get (.getCondition mn) false, .create (.createCondition mn uri pid)],
         .ok ()⟩ := by
  unfold ensureCondition
  simp only [stubStep, get_alert_condition_stub]
  cases hf : s.conditions.find? fun e => e.name == conditionName mn with
  | some e => simp [expectedFind, hf]
  | none => simp [expectedFind, hf, stubStep, create_alert_condition_stub]

theorem ensureDestination_stub (n rcpt : String) (s : StubState) :
    ensureDestination stubStep n rcpt s =
      match s.destinations.find? fun e => e.name == n with
      | some e => ⟨s, [.get (.getDestination n) true], .ok ⟨e.id, e.name⟩⟩
      | none =>
        ⟨{ s with destinations := s.destinations ++ [⟨freshId s.counter, n, rcpt⟩],
                  counter := s.counter + 1 },
         [.get (.getDestination n) false, .create (.createDestination n rcpt)],
         .ok ⟨freshId s.counter, n⟩⟩ := by
  unfold ensureDestination
  simp only [stubStep, get_notification_destination_stub]
  cases hf : s.destinations.find? fun e => e.name == n with
  | some e => simp [expectedFind, hf]
  | none => simp [expectedFind, hf, stubStep, create_notification_destination_stub]

theorem ensureChannel_stub (n did : String) (s : StubState) :
    ensureChannel stubStep n did s =
      match s.channels.find? fun e => e.name == n with
      | some e => ⟨s, [.get (.getChannel n) true], .ok ⟨e.id, e.name⟩⟩
      | none =>
        ⟨{ s with channels := s.channels ++ [⟨freshId s.counter, n, did⟩],
                  counter := s.counter + 1 },
         [.get (.getChannel n) false, .create (.createChannel n did)],
         .ok ⟨freshId s.counter, n⟩⟩ := by
  unfold ensureChannel
  simp only [stubStep, get_notification_channel_stub]
  cases hf : s.channels.find? fun e => e.name == n with
  | some e => simp [expectedFind, hf]
  | none => simp [expectedFind, hf, stubStep, create_notificaiton_channel_stub]

theorem ensureWorkflow_stub (inst pid cid : String) (s : StubState) :
    ensureWorkflow stubStep inst pid cid s =
      match s.workflows.find? fun e => e.name == workflowName inst with
      | some e => ⟨s, [.get (.getWorkflow inst) true], .ok ⟨e.id, e.name⟩⟩
      | none =>
        ⟨{ s with workflows := s.workflows ++ [⟨freshId s.counter, workflowName inst, pid ++ "/" ++ cid⟩],
                  counter := s.counter + 1 },
         [.get (.getWorkflow inst) false, .create (.createWorkflow inst pid cid)],
         .ok ⟨freshId s.counter, workflowName inst⟩⟩ := by
  unfold ensureWorkflow
  simp only [stubStep, get_ai_workflow_stub]
  cases hf : s.workflows.find? fun e => e.name == workflowName inst with
  | some e => simp [expectedFind, hf]
  | none => simp [expectedFind, hf, stubStep, create_ai_workflow_stub]

/-! ### Invariant language: presence, growth, name uniqueness -/

/-- A kind's entry list holds a resource with the given name. -/
def hasRes (l : List Entry) (n : String) : Bool :=
  (l.find? fun e => e.name == n).isSome

/-- Presence survives appending entries on the right. -/
theorem hasRes_append_left {l : List Entry} {n : String}
    (h : hasRes l n = true) (a : List Entry) : hasRes (l ++ a) n = true := by
  unfold hasRes at h ⊢
  rw [List.find?_append]
  cases hf : l.find? fun e => e.name == n
  · rw [hf] at h; simp at h
  · simp [hf]

/-- Appending an entry named `n` makes `n` present. -/
theorem hasRes_append_self (l : List Entry) (i n x : String) :
    hasRes (l ++ [⟨i, n, x⟩]) n = true := by
  unfold hasRes
  rw [List.find?_append]
  cases hf : l.find? fun e => e.name == n <;> simp [hf, List.find?_cons]

/-- Each entry list of `t` extends the corresponding list of `s` on the
right (the stub only ever appends). -/
structure Grows (s t : StubState) : Prop where
  policies : ∃ a, t.policies = s.policies ++ a
  monitors : ∃ a, t.monitors = s.monitors ++ a
  destinations : ∃ a, t.destinations = s.destinations ++ a
  channels : ∃ a, t.channels = s.channels ++ a
  workflows : ∃ a, t.workflows = s.workflows ++ a
  conditions : ∃ a, t.conditions = s.conditions ++ a

theorem Grows.refl (s : StubState) : Grows s s :=
  ⟨⟨[], by simp⟩, ⟨[], by simp⟩, ⟨[], by simp⟩, ⟨[], by simp⟩, ⟨[], by simp⟩, ⟨[], by simp⟩⟩

theorem Grows.trans {s t u : StubState} (h1 : Grows s t) (h2 : Grows t u) : Grows s u := by
  obtain ⟨⟨a1, e1⟩, ⟨a2, e2⟩, ⟨a3, e3⟩, ⟨a4, e4⟩, ⟨a5, e5⟩, ⟨a6, e6⟩⟩ := h1
  obtain ⟨⟨b1, f1⟩, ⟨b2, f2⟩, ⟨b3, f3⟩, ⟨b4, f4⟩, ⟨b5, f5⟩, ⟨b6, f6⟩⟩ := h2
  exact ⟨⟨a1 ++ b1, by rw [f1, e1, List.append_assoc]⟩,
         ⟨a2 ++ b2, by rw [f2, e2, List.append_assoc]⟩,
         ⟨a3 ++ b3, by rw [f3, e3, List.append_assoc]⟩,
         ⟨a4 ++ b4, by rw [f4, e4, List.append_assoc]⟩,
         ⟨a5 ++ b5, by rw [f5, e5, List.append_assoc]⟩,
         ⟨a6 ++ b6, by rw [f6, e6, List.append_assoc]⟩⟩

/-- Presence is monotone along growth of a list. -/
theorem hasRes_mono {l l' : List Entry} {n : String}
    (g : ∃ a, l' = l ++ a) (h : hasRes l n = true) : hasRes l' n = true := by
  obtain ⟨a, rfl⟩ := g
  exact hasRes_append_left h a

/-- The names of a kind's entries are pairwise distinct: at most one
resource per (kind, name) pair. -/
def nodupNames (l : List Entry) : Prop := (l.map Entry.name).Nodup

/-- Appending an entry whose name is absent preserves name uniqueness. -/
theorem nodupNames_append_fresh {l : List Entry} {n : String}
    (hl : nodupNames l) (h : hasRes l n = false) (i x : String) :
    nodupNames (l ++ [⟨i, n, x⟩]) := by
  unfold nodupNames at hl ⊢
  rw [List.map_append, List.nodup_append]
  refine ⟨hl, by simp, ?_⟩
  intro a ha hb
  simp only [List.map_cons, List.map_nil, List.mem_singleton] at hb
  obtain ⟨e, he, hen⟩ := List.mem_map.mp ha
  have hn : l.find? (fun e => e.name == n) = none := by
    cases hf : l.find? fun e => e.name == n
    · rfl
    · rw [hasRes, hf] at h; simp at h
  have hne := List.find?_eq_none.mp hn e he
  exact hne (beq_iff_eq.mpr (hen.trans hb))

/-- Name uniqueness for every resource kind of the stub. -/
structure NodupAll (s : StubState) : Prop where
  policies : nodupNames s.policies
  monitors : nodupNames s.monitors
  destinations : nodupNames s.destinations
  channels : nodupNames s.channels
  workflows : nodupNames s.workflows
  conditions : nodupNames s.conditions

theorem nodupAll_empty : NodupAll emptyStub :=
  ⟨by simp [nodupNames, emptyStub], by simp [nodupNames, emptyStub],
   by simp [nodupNames, emptyStub], by simp [nodupNames, emptyStub],
   by simp [nodupNames, emptyStub], by simp [nodupNames, emptyStub]⟩

/-- The stub holds a monitor and a lost-signal condition for every URL of
the list. -/
def coversUrls (s : StubState) (urls : List String) : Prop :=
  ∀ url ∈ urls, hasRes s.monitors url = true ∧
    hasRes s.conditions (conditionName url) = true

/-- The stub holds destination, channel, workflow and all URL resources
for every monitor config of the list. -/
def coversConfigs (s : StubState) (instanceName : String)
    (mcs : List MonitorConfig) : Prop :=
  ∀ mc ∈ mcs, hasRes s.destinations (destName instanceName) = true ∧
    hasRes s.channels (destName instanceName) = true ∧
    hasRes s.workflows (workflowName instanceName) = true ∧
    coversUrls s mc.urls

/-- The stub holds every resource the configuration induces. -/
def covers (s : StubState) (cfg : OrchConfig) : Prop :=
  hasRes s.policies (policyName cfg.instance_name) = true ∧
  coversConfigs s cfg.instance_name cfg.monitors

theorem coversUrls_mono {s t : StubState} (g : Grows s t) {urls : List String}
    (h : coversUrls s urls) : coversUrls t urls := fun url hu =>
  ⟨hasRes_mono g.monitors (h url hu).1, hasRes_mono g.conditions (h url hu).2⟩

theorem coversConfigs_mono {s t : StubState} (g : Grows s t) {instanceName : String}
    {mcs : List MonitorConfig} (h : coversConfigs s instanceName mcs) :
    coversConfigs t instanceName mcs := fun mc hmc =>
  ⟨hasRes_mono g.destinations (h mc hmc).1, hasRes_mono g.channels (h mc hmc).2.1,
   hasRes_mono g.workflows (h mc hmc).2.2.1, coversUrls_mono g (h mc hmc).2.2.2⟩

/-! ### Total-correctness invariants of the orchestration loops over the
stub remote -/

/-- What the URL loop guarantees over the stub: success, growth of the
state, untouched other kinds, coverage of its URLs, and preservation of
name uniqueness. -/
structure UrlsOut (s : StubState) (urls : List String)
    (o : StepOut StubState Unit) : Prop where
  ok : o.result = .ok ()
  grows : Grows s o.remote
  policies : o.remote.policies = s.policies
  destinations : o.remote.destinations = s.destinations
  channels : o.remote.channels = s.channels
  workflows : o.remote.workflows = s.workflows
  covers : coversUrls o.remote urls
  nodup : NodupAll s → NodupAll o.remote

/-- Growth by appending one condition entry. -/
theorem grows_addCondition (s : StubState) (x : Entry) (c : Nat) :
    Grows s { s with conditions := s.conditions ++ [x], counter := c } :=
  ⟨⟨[], by simp⟩, ⟨[], by simp⟩, ⟨[], by simp⟩, ⟨[], by simp⟩, ⟨[], by simp⟩, ⟨[x], rfl⟩⟩

/-- Growth by appending one monitor entry. -/
theorem grows_addMonitor (s : StubState) (x : Entry) (c : Nat) :
    Grows s { s with monitors := s.monitors ++ [x], counter := c } :=
  ⟨⟨[], by simp⟩, ⟨[x], rfl⟩, ⟨[], by simp⟩, ⟨[], by simp⟩, ⟨[], by simp⟩, ⟨[], by simp⟩⟩

/-- Presence of a name written as a `find?` equation implies `hasRes`. -/
theorem hasRes_of_find?_some {l : List Entry} {n : String} {e : Entry}
    (h : (l.find? fun x => x.name == n) = some e) : hasRes l n = true := by
  rw [hasRes, h]; rfl

/-- Absence of a name written as a `find?` equation implies `hasRes` is
false. -/
theorem hasRes_of_find?_none {l : List Entry} {n : String}
    (h : (l.find? fun x => x.name == n) = none) : hasRes l n = false := by
  rw [hasRes, h]; rfl

/-- The URL loop over the stub always succeeds, only appends, touches
only monitors and conditions, covers its URLs and preserves uniqueness. -/
theorem processUrls_stub (period location pid : String) :
    ∀ (urls : List String) (s : StubState),
      UrlsOut s urls (processUrls stubStep period location pid urls s)
  | [], s => by
    refine ⟨rfl, Grows.refl s, rfl, rfl, rfl, rfl, ?_, fun h => h⟩
    intro url hu
    cases hu
  | url :: rest, s => by
    simp only [processUrls]
    rw [ensureMonitor_stub]
    cases hm : s.monitors.find? fun e => e.name == url with
    | some e =>
      have hp := List.find?_some hm
      have he : e.name = url := eq_of_beq hp
      dsimp only
      simp only [he]
      rw [ensureCondition_stub]
      cases hc : s.conditions.find? fun x => x.name == conditionName url with
      | some c =>
        dsimp only
        have ih := processUrls_stub period location pid rest s
        refine ⟨ih.ok, ih.grows, ih.policies, ih.destinations, ih.channels,
          ih.workflows, ?_, ih.nodup⟩
        intro u hu
        rcases List.mem_cons.mp hu with h1 | h1
        · subst h1
          exact ⟨hasRes_mono ih.grows.monitors (hasRes_of_find?_some hm),
                 hasRes_mono ih.grows.conditions (hasRes_of_find?_some hc)⟩
        · exact ih.covers u h1
      | none =>
        dsimp only
        set s2 : StubState :=
          { s with conditions := s.conditions ++ [⟨freshId s.counter, conditionName url, pid⟩],
                   counter := s.counter + 1 } with hs2
        have g2 : Grows s s2 := grows_addCondition s _ _
        have ih := processUrls_stub period location pid rest s2
        refine ⟨ih.ok, g2.trans ih.grows, ?_, ?_, ?_, ?_, ?_, ?_⟩
        · rw [ih.policies]
        · rw [ih.destinations]
        · rw [ih.channels]
        · rw [ih.workflows]
        · intro u hu
          rcases List.mem_cons.mp hu with h1 | h1
          · subst h1
            refine ⟨hasRes_mono ih.grows.monitors (hasRes_of_find?_some hm), ?_⟩
            exact hasRes_mono ih.grows.conditions (hasRes_append_self _ _ _ _)
          · exact ih.covers u h1
        · intro hn
          refine ih.nodup ⟨hn.policies, hn.monitors, hn.destinations, hn.channels,
            hn.workflows, ?_⟩
          exact nodupNames_append_fresh hn.conditions (hasRes_of_find?_none hc) _ _
    | none =>
      dsimp only
      set s1 : StubState :=
        { s with monitors := s.monitors ++ [⟨freshId s.counter, url, url⟩],
                 counter := s.counter + 1 } with hs1
      rw [ensureCondition_stub]
      have hcond1 : s1.conditions = s.conditions := rfl
      cases hc : s1.conditions.find? fun x => x.name == conditionName url with
      | some c =>
        dsimp only
        have ih := processUrls_stub period location pid rest s1
        have g1 : Grows s s1 := grows_addMonitor s _ _
        refine ⟨ih.ok, g1.trans ih.grows, ?_, ?_, ?_, ?_, ?_, ?_⟩
        · rw [ih.policies]
        · rw [ih.destinations]
        · rw [ih.channels]
        · rw [ih.workflows]
        · intro u hu
          rcases List.mem_cons.mp hu with h1 | h1
          · subst h1
            refine ⟨hasRes_mono ih.grows.monitors (hasRes_append_self _ _ _ _), ?_⟩
            exact hasRes_mono ih.grows.conditions (hasRes_of_find?_some hc)
          · exact ih.covers u h1
        · intro hn
          refine ih.nodup ⟨hn.policies, ?_, hn.destinations, hn.channels,
            hn.workflows, hn.conditions⟩
          exact nodupNames_append_fresh hn.monitors (hasRes_of_find?_none hm) _ _
      | none =>
        dsimp only
        set s2 : StubState :=
          { s1 with conditions := s1.conditions ++ [⟨freshId s1.counter, conditionName url, pid⟩],
                    counter := s1.counter + 1 } with hs2
        have ih := processUrls_stub period location pid rest s2
        have g1 : Grows s s1 := grows_addMonitor s _ _
        have g2 : Grows s1 s2 := grows_addCondition s1 _ _
        refine ⟨ih.ok, (g1.trans g2).trans ih.grows, ?_, ?_, ?_, ?_, ?_, ?_⟩
        · rw [ih.policies]
        · rw [ih.destinations]
        · rw [ih.channels]
        · rw [ih.workflows]
        · intro u hu
          rcases List.mem_cons.mp hu with h1 | h1
          · subst h1
            refine ⟨?_, ?_⟩
            · exact hasRes_mono ih.grows.monitors
                (hasRes_mono g2.monitors (hasRes_append_self _ _ _ _))
            · exact hasRes_mono ih.grows.conditions (hasRes_append_self _ _ _ _)
          · exact ih.covers u h1
        · intro hn
          have hn1 : NodupAll s1 :=
            ⟨hn.policies, nodupNames_append_fresh hn.monitors (hasRes_of_find?_none hm) _ _,
             hn.destinations, hn.channels, hn.workflows, hn.conditions⟩
          refine ih.nodup ⟨hn1.policies, hn1.monitors, hn1.destinations, hn1.channels,
            hn1.workflows, ?_⟩
          exact nodupNames_append_fresh hn1.conditions (hasRes_of_find?_none hc) _ _

/-- Get-or-create of the policy over the stub: always succeeds, ensures
the name, leaves every other kind untouched. -/
theorem ensurePolicy_stub_ok (n : String) (s : StubState) :
    ∃ t tr p, ensurePolicy stubStep n s = ⟨t, tr, .ok p⟩ ∧
      Grows s t ∧ (NodupAll s → NodupAll t) ∧ hasRes t.policies n = true ∧
      t.monitors = s.monitors ∧ t.destinations = s.destinations ∧
      t.channels = s.channels ∧ t.workflows = s.workflows ∧
      t.conditions = s.conditions := by
  rw [ensurePolicy_stub]
  cases hd : s.policies.find? fun e => e.name == n with
  | some e =>
    exact ⟨s, _, _, rfl, Grows.refl s, fun h => h, hasRes_of_find?_some hd,
      rfl, rfl, rfl, rfl, rfl⟩
  | none =>
    refine ⟨_, _, _, rfl, ?_, ?_, hasRes_append_self _ _ _ _, rfl, rfl, rfl, rfl, rfl⟩
    · exact ⟨⟨[⟨freshId s.counter, n, ""⟩], rfl⟩, ⟨[], by simp⟩, ⟨[], by simp⟩,
        ⟨[], by simp⟩, ⟨[], by simp⟩, ⟨[], by simp⟩⟩
    · intro hn
      exact ⟨nodupNames_append_fresh hn.policies (hasRes_of_find?_none hd) _ _,
        hn.monitors, hn.destinations, hn.channels, hn.workflows, hn.conditions⟩

/-- Get-or-create of the destination over the stub. -/
theorem ensureDestination_stub_ok (n rcpt : String) (s : StubState) :
    ∃ t tr d, ensureDestination stubStep n rcpt s = ⟨t, tr, .ok d⟩ ∧
      Grows s t ∧ (NodupAll s → NodupAll t) ∧ hasRes t.destinations n = true ∧
      t.policies = s.policies ∧ t.monitors = s.monitors ∧
      t.channels = s.channels ∧ t.workflows = s.workflows ∧
      t.conditions = s.conditions := by
  rw [ensureDestination_stub]
  cases hd : s.destinations.find? fun e => e.name == n with
  | some e =>
    exact ⟨s, _, _, rfl, Grows.refl s, fun h => h, hasRes_of_find?_some hd,
      rfl, rfl, rfl, rfl, rfl⟩
  | none =>
    refine ⟨_, _, _, rfl, ?_, ?_, hasRes_append_self _ _ _ _, rfl, rfl, rfl, rfl, rfl⟩
    · exact ⟨⟨[], by simp⟩, ⟨[], by simp⟩, ⟨[⟨freshId s.counter, n, rcpt⟩], rfl⟩,
        ⟨[], by simp⟩, ⟨[], by simp⟩, ⟨[], by simp⟩⟩
    · intro hn
      exact ⟨hn.policies, hn.monitors,
        nodupNames_append_fresh hn.destinations (hasRes_of_find?_none hd) _ _,
        hn.channels, hn.workflows, hn.conditions⟩

/-- Get-or-create of the channel over the stub. -/
theorem ensureChannel_stub_ok (n did : String) (s : StubState) :
    ∃ t tr c, ensureChannel stubStep n did s = ⟨t, tr, .ok c⟩ ∧
      Grows s t ∧ (NodupAll s → NodupAll t) ∧ hasRes t.channels n = true ∧
      t.policies = s.policies ∧ t.monitors = s.monitors ∧
      t.destinations = s.destinations ∧ t.workflows = s.workflows ∧
      t.conditions = s.conditions := by
  rw [ensureChannel_stub]
  cases hd : s.channels.find? fun e => e.name == n with
  | some e =>
    exact ⟨s, _, _, rfl, Grows.refl s, fun h => h, hasRes_of_find?_some hd,
      rfl, rfl, rfl, rfl, rfl⟩
  | none =>
    refine ⟨_, _, _, rfl, ?_, ?_, hasRes_append_self _ _ _ _, rfl, rfl, rfl, rfl, rfl⟩
    · exact ⟨⟨[], by simp⟩, ⟨[], by simp⟩, ⟨[], by simp⟩,
        ⟨[⟨freshId s.counter, n, did⟩], rfl⟩, ⟨[], by simp⟩, ⟨[], by simp⟩⟩
    · intro hn
      exact ⟨hn.policies, hn.monitors, hn.destinations,
        nodupNames_append_fresh hn.channels (hasRes_of_find?_none hd) _ _,
        hn.workflows, hn.conditions⟩

/-- Get-or-create of the workflow over the stub. -/
theorem ensureWorkflow_stub_ok (inst pid cid : String) (s : StubState) :
    ∃ t tr w, ensureWorkflow stubStep inst pid cid s = ⟨t, tr, .ok w⟩ ∧
      Grows s t ∧ (NodupAll s → NodupAll t) ∧
      hasRes t.workflows (workflowName inst) = true ∧
      t.policies = s.policies ∧ t.monitors = s.monitors ∧
      t.destinations = s.destinations ∧ t.channels = s.channels ∧
      t.conditions = s.conditions := by
  rw [ensureWorkflow_stub]
  cases hd : s.workflows.find? fun e => e.name == workflowName inst with
  | some e =>
    exact ⟨s, _, _, rfl, Grows.refl s, fun h => h, hasRes_of_find?_some hd,
      rfl, rfl, rfl, rfl, rfl⟩
  | none =>
    refine ⟨_, _, _, rfl, ?_, ?_, hasRes_append_self _ _ _ _, rfl, rfl, rfl, rfl, rfl⟩
    · exact ⟨⟨[], by simp⟩, ⟨[], by simp⟩, ⟨[], by simp⟩, ⟨[], by simp⟩,
        ⟨[⟨freshId s.counter, workflowName inst, pid ++ "/" ++ cid⟩], rfl⟩, ⟨[], by simp⟩⟩
    · intro hn
      exact ⟨hn.policies, hn.monitors, hn.destinations, hn.channels,
        nodupNames_append_fresh hn.workflows (hasRes_of_find?_none hd) _ _,
        hn.conditions⟩

/-- What the monitor-config loop guarantees over the stub. -/
structure ConfigsOut (s : StubState) (instanceName : String)
    (mcs : List MonitorConfig) (o : StepOut StubState Unit) : Prop where
  ok : o.result = .ok ()
  grows : Grows s o.remote
  policies : o.remote.policies = s.policies
  covers : coversConfigs o.remote instanceName mcs
  nodup : NodupAll s → NodupAll o.remote

/-- The monitor-config loop over the stub always succeeds, only appends,
leaves the policies untouched, ends covering all its configs, and
preserves name uniqueness. -/
theorem processMonitorConfigs_stub (instanceName pid period location : String) :
    ∀ (mcs : List MonitorConfig) (s : StubState),
      ConfigsOut s instanceName mcs
        (processMonitorConfigs stubStep instanceName pid period location mcs s)
  | [], s => by
    refine ⟨rfl, Grows.refl s, rfl, ?_, fun h => h⟩
    intro mc hmc
    cases hmc
  | mc :: rest, s => by
    simp only [processMonitorConfigs]
    obtain ⟨t1, tr1, d, hd, g1, nd1, hr1, hpol1, hmon1, hchan1, hwf1, hcond1⟩ :=
      ensureDestination_stub_ok (destName instanceName) mc.recipient s
    rw [hd]
    dsimp only
    obtain ⟨t2, tr2, c, hc, g2, nd2, hr2, hpol2, hmon2, hdest2, hwf2, hcond2⟩ :=
      ensureChannel_stub_ok (destName instanceName) d.id t1
    rw [hc]
    dsimp only
    obtain ⟨t3, tr3, w, hw, g3, nd3, hr3, hpol3, hmon3, hdest3, hchan3, hcond3⟩ :=
      ensureWorkflow_stub_ok instanceName pid c.id t2
    rw [hw]
    dsimp only
    have hu := processUrls_stub period location pid mc.urls t3
    rw [hu.ok]
    dsimp only
    have ih := processMonitorConfigs_stub instanceName pid period location rest
      (processUrls stubStep period location pid mc.urls t3).remote
    refine ⟨ih.ok, ?_, ?_, ?_, ?_⟩
    · exact g1.trans (g2.trans (g3.trans (hu.grows.trans ih.grows)))
    · rw [ih.policies, hu.policies, hpol3, hpol2, hpol1]
    · intro mc2 hmc2
      rcases List.mem_cons.mp hmc2 with h1 | h1
      · subst h1
        refine ⟨?_, ?_, ?_, ?_⟩
        · apply hasRes_mono ih.grows.destinations
          rw [hu.destinations, hdest3, hdest2]
          exact hr1
        · apply hasRes_mono ih.grows.channels
          rw [hu.channels, hchan3]
          exact hr2
        · apply hasRes_mono ih.grows.workflows
          rw [hu.workflows]
          exact hr3
        · exact coversUrls_mono ih.grows hu.covers
      · exact ih.covers mc2 h1
    · intro hn
      exact ih.nodup (hu.nodup (nd3 (nd2 (nd1 hn))))

/-- What one whole orchestration run guarantees over the stub. -/
structure RunOut (s : StubState) (cfg : OrchConfig)
    (o : StepOut StubState Unit) : Prop where
  ok : o.result = .ok ()
  grows : Grows s o.remote
  covers : covers o.remote cfg
  nodup : NodupAll s → NodupAll o.remote

/-- A full orchestration run over the stub always succeeds, only appends,
ends covering the configuration, and preserves name uniqueness. -/
theorem create_alert_workflow_stub (cfg : OrchConfig) (s : StubState) :
    RunOut s cfg (create_alert_workflow stubStep cfg s) := by
  simp only [create_alert_workflow]
  obtain ⟨t1, tr1, p, hp, g1, nd1, hr1, hmon1, hdest1, hchan1, hwf1, hcond1⟩ :=
    ensurePolicy_stub_ok (policyName cfg.instance_name) s
  rw [hp]
  dsimp only
  have hc := processMonitorConfigs_stub cfg.instance_name p.id cfg.period cfg.location
    cfg.monitors t1
  refine ⟨hc.ok, g1.trans hc.grows, ⟨?_, hc.covers⟩, fun hn => hc.nodup (nd1 hn)⟩
  exact hasRes_mono hc.grows.policies hr1

/-! ### The second run: every lookup succeeds and nothing is created -/

/-- Get-or-create of a policy that is already present: one successful
lookup, state untouched. -/
theorem ensurePolicy_stub_found {s : StubState} {n : String}
    (h : hasRes s.policies n = true) :
    ∃ p, ensurePolicy stubStep n s = ⟨s, [.get (.getPolicy n) true], .ok p⟩ := by
  cases hd : s.policies.find? fun x => x.name == n with
  | none => rw [hasRes, hd] at h; simp at h
  | some e => exact ⟨⟨e.id, e.name⟩, by rw [ensurePolicy_stub, hd]⟩

/-- Get-or-create of a destination that is already present. -/
theorem ensureDestination_stub_found {s : StubState} {n : String}
    (h : hasRes s.destinations n = true) (rcpt : String) :
    ∃ d, ensureDestination stubStep n rcpt s
      = ⟨s, [.get (.getDestination n) true], .ok d⟩ := by
  cases hd : s.destinations.find? fun x => x.name == n with
  | none => rw [hasRes, hd] at h; simp at h
  | some e => exact ⟨⟨e.id, e.name⟩, by rw [ensureDestination_stub, hd]⟩

/-- Get-or-create of a channel that is already present. -/
theorem ensureChannel_stub_found {s : StubState} {n : String}
    (h : hasRes s.channels n = true) (did : String) :
    ∃ c, ensureChannel stubStep n did s
      = ⟨s, [.get (.getChannel n) true], .ok c⟩ := by
  cases hd : s.channels.find? fun x => x.name == n with
  | none => rw [hasRes, hd] at h; simp at h
  | some e => exact ⟨⟨e.id, e.name⟩, by rw [ensureChannel_stub, hd]⟩

/-- Get-or-create of a workflow that is already present. -/
theorem ensureWorkflow_stub_found {s : StubState} {inst : String}
    (h : hasRes s.workflows (workflowName inst) = true) (pid cid : String) :
    ∃ w, ensureWorkflow stubStep inst pid cid s
      = ⟨s, [.get (.getWorkflow inst) true], .ok w⟩ := by
  cases hd : s.workflows.find? fun x => x.name == workflowName inst with
  | none => rw [hasRes, hd] at h; simp at h
  | some e => exact ⟨⟨e.id, e.name⟩, by rw [ensureWorkflow_stub, hd]⟩

/-- Get-or-create of a monitor that is already present: the name handed
back to the caller is the URL itself. -/
theorem ensureMonitor_stub_found {s : StubState} {url : String}
    (h : hasRes s.monitors url = true) (period location : String) :
    ensureMonitor stubStep url period location s
      = ⟨s, [.get (.getMonitor url) true], .ok url⟩ := by
  cases hd : s.monitors.find? fun x => x.name == url with
  | none => rw [hasRes, hd] at h; simp at h
  | some e =>
    have hp := List.find?_some hd
    have he : e.name = url := eq_of_beq hp
    rw [ensureMonitor_stub, hd]
    dsimp only
    rw [he]

/-- Get-or-create of a condition that is already present. -/
theorem ensureCondition_stub_found {s : StubState} {mn : String}
    (h : hasRes s.conditions (conditionName mn) = true) (uri pid : String) :
    ensureCondition stubStep mn uri pid s
      = ⟨s, [.get (.getCondition mn) true], .ok ()⟩ := by
  cases hd : s.conditions.find? fun x => x.name == conditionName mn with
  | none => rw [hasRes, hd] at h; simp at h
  | some e => rw [ensureCondition_stub, hd]

/-- The trace of a URL loop that finds everything. -/
def urlsGetTrace : List String → List Ev
  | [] => []
  | url :: rest =>
    .get (.getMonitor url) true :: .get (.getCondition url) true :: urlsGetTrace rest

/-- The trace of a monitor-config loop that finds everything. -/
def configsGetTrace (instanceName : String) : List MonitorConfig → List Ev
  | [] => []
  | mc :: rest =>
    .get (.getDestination (destName instanceName)) true ::
    .get (.getChannel (destName instanceName)) true ::
    .get (.getWorkflow instanceName) true ::
    (urlsGetTrace mc.urls ++ configsGetTrace instanceName rest)

/-- Over a stub that covers its URLs, the URL loop only performs
successful lookups and leaves the remote untouched. -/
theorem processUrls_covered (period location pid : String) :
    ∀ (urls : List String) (s : StubState), coversUrls s urls →
      processUrls stubStep period location pid urls s
        = ⟨s, urlsGetTrace urls, .ok ()⟩
  | [], _, _ => rfl
  | url :: rest, s, h => by
    simp only [processUrls]
    rw [ensureMonitor_stub_found (h url (List.mem_cons_self url rest)).1 period location]
    dsimp only
    rw [ensureCondition_stub_found (h url (List.mem_cons_self url rest)).2 url pid]
    dsimp only
    rw [processUrls_covered period location pid rest s
      (fun u hu => h u (List.mem_cons_of_mem url hu))]
    rfl

/-- Over a stub that covers its configs, the monitor-config loop only
performs successful lookups and leaves the remote untouched. -/
theorem processMonitorConfigs_covered (instanceName pid period location : String) :
    ∀ (mcs : List MonitorConfig) (s : StubState), coversConfigs s instanceName mcs →
      processMonitorConfigs stubStep instanceName pid period location mcs s
        = ⟨s, configsGetTrace instanceName mcs, .ok ()⟩
  | [], _, _ => rfl
  | mc :: rest, s, h => by
    have hmc := h mc (List.mem_cons_self mc rest)
    simp only [processMonitorConfigs]
    obtain ⟨d, hd⟩ := ensureDestination_stub_found hmc.1 mc.recipient
    rw [hd]
    dsimp only
    obtain ⟨c, hc⟩ := ensureChannel_stub_found hmc.2.1 d.id
    rw [hc]
    dsimp only
    obtain ⟨w, hw⟩ := ensureWorkflow_stub_found hmc.2.2.1 pid c.id
    rw [hw]
    dsimp only
    rw [processUrls_covered period location pid mc.urls s hmc.2.2.2]
    dsimp only
    rw [processMonitorConfigs_covered instanceName pid period location rest s
      (fun m hm => h m (List.mem_cons_of_mem mc hm))]
    rfl

/-- Over a stub that covers the configuration, a whole orchestration run
only performs successful lookups and leaves the remote untouched. -/
theorem create_alert_workflow_covered (cfg : OrchConfig) (s : StubState)
    (h : covers s cfg) :
    create_alert_workflow stubStep cfg s
      = ⟨s, .get (.getPolicy (policyName cfg.instance_name)) true ::
            configsGetTrace cfg.instance_name cfg.monitors, .ok ()⟩ := by
  simp only [create_alert_workflow]
  obtain ⟨p, hp⟩ := ensurePolicy_stub_found h.1
  rw [hp]
  dsimp only
  rw [processMonitorConfigs_covered cfg.instance_name p.id cfg.period cfg.location
    cfg.monitors s h.2]
  rfl

/-- Every event of a covered URL-loop trace is a successful lookup. -/
theorem urlsGetTrace_all_found :
    ∀ urls : List String, (urlsGetTrace urls).all Ev.isFoundGet = true
  | [] => rfl
  | _ :: rest => by
    simp only [urlsGetTrace, List.all_cons, Ev.isFoundGet, Bool.true_and]
    exact urlsGetTrace_all_found rest

/-- Every event of a covered config-loop trace is a successful lookup. -/
theorem configsGetTrace_all_found (instanceName : String) :
    ∀ mcs : List MonitorConfig,
      (configsGetTrace instanceName mcs).all Ev.isFoundGet = true
  | [] => rfl
  | mc :: rest => by
    simp only [configsGetTrace, List.all_cons, Ev.isFoundGet, Bool.true_and,
      List.all_append, Bool.and_eq_true]
    exact ⟨urlsGetTrace_all_found mc.urls, configsGetTrace_all_found instanceName rest⟩

/-- A successful lookup is not a create operation. -/
theorem isFoundGet_not_isCreate {e : Ev} (h : e.isFoundGet = true) :
    e.isCreate = false := by
  cases e <;> simp [Ev.isFoundGet, Ev.isCreate] at h ⊢

/-! ### Claims about the orchestration -/

/-- C2: running the orchestration twice with identical configuration
against the remembering stub, starting from an empty remote: the first
run succeeds and ends with every configured resource present and at most
one resource per (kind, name) pair (`NodupAll`); the second run leaves
the remote exactly as the first left it, returns success, and its trace
consists solely of successful lookups — zero create operations. -/
theorem claim_C2_idempotent_runs (cfg : OrchConfig) :
    (create_alert_workflow stubStep cfg emptyStub).result = .ok () ∧
    covers (create_alert_workflow stubStep cfg emptyStub).remote cfg ∧
    NodupAll (create_alert_workflow stubStep cfg emptyStub).remote ∧
    create_alert_workflow stubStep cfg (create_alert_workflow stubStep cfg emptyStub).remote
      = ⟨(create_alert_workflow stubStep cfg emptyStub).remote,
         .get (.getPolicy (policyName cfg.instance_name)) true ::
           configsGetTrace cfg.instance_name cfg.monitors, .ok ()⟩ ∧
    ((.get (.getPolicy (policyName cfg.instance_name)) true ::
        configsGetTrace cfg.instance_name cfg.monitors : List Ev).all
      Ev.isFoundGet = true) ∧
    ((.get (.getPolicy (policyName cfg.instance_name)) true ::
        configsGetTrace cfg.instance_name cfg.monitors : List Ev).all
      (fun e => !e.isCreate) = true) := by
  have r := create_alert_workflow_stub cfg emptyStub
  have hall : ((.get (.getPolicy (policyName cfg.instance_name)) true ::
      configsGetTrace cfg.instance_name cfg.monitors : List Ev).all
        Ev.isFoundGet = true) := by
    simp only [List.all_cons, Ev.isFoundGet, Bool.true_and]
    exact configsGetTrace_all_found cfg.instance_name cfg.monitors
  refine ⟨r.ok, r.covers, r.nodup nodupAll_empty,
    create_alert_workflow_covered cfg _ r.covers, hall, ?_⟩
  rw [List.all_eq_true] at hall ⊢
  intro e he
  rw [isFoundGet_not_isCreate (hall e he)]
  rfl

/-- Once destination and channel are present, the remainder of the
monitor-config loop leaves both kinds' entries exactly unchanged. -/
theorem processMonitorConfigs_destStable (instanceName pid period location : String) :
    ∀ (mcs : List MonitorConfig) (s : StubState),
      hasRes s.destinations (destName instanceName) = true →
      hasRes s.channels (destName instanceName) = true →
      (processMonitorConfigs stubStep instanceName pid period location mcs s).remote.destinations
        = s.destinations ∧
      (processMonitorConfigs stubStep instanceName pid period location mcs s).remote.channels
        = s.channels
  | [], s, _, _ => ⟨rfl, rfl⟩
  | mc :: rest, s, hd, hc => by
    simp only [processMonitorConfigs]
    obtain ⟨d, hdd⟩ := ensureDestination_stub_found hd mc.recipient
    rw [hdd]
    dsimp only
    obtain ⟨c, hcc⟩ := ensureChannel_stub_found hc d.id
    rw [hcc]
    dsimp only
    obtain ⟨t3, tr3, w, hw, g3, nd3, hr3, hpol3, hmon3, hdest3, hchan3, hcond3⟩ :=
      ensureWorkflow_stub_ok instanceName pid c.id s
    rw [hw]
    dsimp only
    have hu := processUrls_stub period location pid mc.urls t3
    rw [hu.ok]
    dsimp only
    have ih := processMonitorConfigs_destStable instanceName pid period location rest
      (processUrls stubStep period location pid mc.urls t3).remote
      (by rw [hu.destinations, hdest3]; exact hd)
      (by rw [hu.channels, hchan3]; exact hc)
    exact ⟨by rw [ih.1, hu.destinations, hdest3], by rw [ih.2, hu.channels, hchan3]⟩

/-- C9: with several monitor configs in one run, only the first config's
recipient ever reaches the remote: the run ends with exactly one
notification destination (named `Default notification channel for
<instance>`, recipient of the first config) and exactly one channel of
the same name, no matter what the remaining configs contain. -/
theorem claim_C9_first_recipient_wins (inst r1 : String) (urls1 : List String)
    (rest : List MonitorConfig) (period location : String) :
    (create_alert_workflow stubStep ⟨inst, ⟨r1, urls1⟩ :: rest, period, location⟩
        emptyStub).remote.destinations
      = [⟨"id1", destName inst, r1⟩] ∧
    (create_alert_workflow stubStep ⟨inst, ⟨r1, urls1⟩ :: rest, period, location⟩
        emptyStub).remote.channels
      = [⟨"id2", destName inst, "id1"⟩] := by
  simp only [create_alert_workflow]
  have hA : ensurePolicy stubStep (policyName inst) emptyStub
      = ⟨⟨[⟨"id0", policyName inst, ""⟩], [], [], [], [], [], 1⟩,
         [.get (.getPolicy (policyName inst)) false,
          .create (.createPolicy (policyName inst))],
         .ok ⟨"id0", policyName inst⟩⟩ := rfl
  simp only [hA]
  simp only [processMonitorConfigs]
  have hB : ensureDestination stubStep (destName inst) r1
        ⟨[⟨"id0", policyName inst, ""⟩], [], [], [], [], [], 1⟩
      = ⟨⟨[⟨"id0", policyName inst, ""⟩], [], [⟨"id1", destName inst, r1⟩], [], [], [], 2⟩,
         [.get (.getDestination (destName inst)) false,
          .create (.createDestination (destName inst) r1)],
         .ok ⟨"id1", destName inst⟩⟩ := by
    with_unfolding_all rfl
  simp only [hB]
  have hC : ensureChannel stubStep (destName inst) "id1"
        ⟨[⟨"id0", policyName inst, ""⟩], [], [⟨"id1", destName inst, r1⟩], [], [], [], 2⟩
      = ⟨⟨[⟨"id0", policyName inst, ""⟩], [], [⟨"id1", destName inst, r1⟩],
          [⟨"id2", destName inst, "id1"⟩], [], [], 3⟩,
         [.get (.getChannel (destName inst)) false,
          .create (.createChannel (destName inst) "id1")],
         .ok ⟨"id2", destName inst⟩⟩ := by
    with_unfolding_all rfl
  simp only [hC]
  have hD : ensureWorkflow stubStep inst "id0" "id2"
        ⟨[⟨"id0", policyName inst, ""⟩], [], [⟨"id1", destName inst, r1⟩],
         [⟨"id2", destName inst, "id1"⟩], [], [], 3⟩
      = ⟨⟨[⟨"id0", policyName inst, ""⟩], [], [⟨"id1", destName inst, r1⟩],
          [⟨"id2", destName inst, "id1"⟩], [⟨"id3", workflowName inst, "id0/id2"⟩], [], 4⟩,
         [.get (.getWorkflow inst) false,
          .create (.createWorkflow inst "id0" "id2")],
         .ok ⟨"id3", workflowName inst⟩⟩ := by
    with_unfolding_all rfl
  simp only [hD]
  have hu := processUrls_stub period location "id0" urls1
    ⟨[⟨"id0", policyName inst, ""⟩], [], [⟨"id1", destName inst, r1⟩],
     [⟨"id2", destName inst, "id1"⟩], [⟨"id3", workflowName inst, "id0/id2"⟩], [], 4⟩
  simp only [hu.ok]
  have hdp : hasRes (processUrls stubStep period location "id0" urls1
      ⟨[⟨"id0", policyName inst, ""⟩], [], [⟨"id1", destName inst, r1⟩],
       [⟨"id2", destName inst, "id1"⟩], [⟨"id3", workflowName inst, "id0/id2"⟩], [],
       4⟩).remote.destinations (destName inst) = true := by
    rw [hu.destinations]
    simp [hasRes]
  have hcp : hasRes (processUrls stubStep period location "id0" urls1
      ⟨[⟨"id0", policyName inst, ""⟩], [], [⟨"id1", destName inst, r1⟩],
       [⟨"id2", destName inst, "id1"⟩], [⟨"id3", workflowName inst, "id0/id2"⟩], [],
       4⟩).remote.channels (destName inst) = true := by
    rw [hu.channels]
    simp [hasRes]
  have hst := processMonitorConfigs_destStable inst "id0" period location rest _ hdp hcp
  exact ⟨by rw [hst.1, hu.destinations], by rw [hst.2, hu.channels]⟩

/-! ### Abort semantics: a failure at any operation stops the run -/

/-- An event recording an operation that raised an exception. -/
def Ev.isFailed : Ev → Bool
  | .getFailed _ => true
  | .createFailed _ => true
  | _ => false

/-- A trace in which every performed operation completed normally. -/
def TraceOk (t : List Ev) : Prop := t.all (fun ev => !ev.isFailed) = true

/-- A trace of a run that aborted: every operation before the last
completed normally, the last one failed, and nothing follows it. -/
def TraceAborts (t : List Ev) : Prop :=
  ∃ t' ev, t = t' ++ [ev] ∧ ev.isFailed = true ∧ TraceOk t'

theorem TraceOk.append {t1 t2 : List Ev} (h1 : TraceOk t1) (h2 : TraceOk t2) :
    TraceOk (t1 ++ t2) := by
  unfold TraceOk at h1 h2 ⊢
  rw [List.all_append, h1, h2]
  rfl

theorem TraceOk.prepend {t1 t2 : List Ev} (h1 : TraceOk t1) (h2 : TraceAborts t2) :
    TraceAborts (t1 ++ t2) := by
  obtain ⟨t', ev, rfl, hev, ht'⟩ := h2
  exact ⟨t1 ++ t', ev, by rw [List.append_assoc], hev, h1.append ht'⟩

/-- What any single get-or-create step and any (partial) run guarantee
over a remote that never removes entries: the state only grows, a
successful result leaves a trace of completed operations only, and an
exception leaves a trace that ends at the failing operation. -/
structure AbortOut {α : Type} (s : StubState) (o : StepOut StubState α) : Prop where
  grows : Grows s o.remote
  ok : ∀ a, o.result = .ok a → TraceOk o.trace
  err : ∀ e, o.result = .error e → TraceAborts o.trace

theorem ensurePolicy_abort (step : StubState → Req → StubState × HttpResponse)
    (hg : ∀ t r, Grows t (step t r).1) (n : String) (s : StubState) :
    AbortOut s (ensurePolicy step n s) := by
  unfold ensurePolicy
  cases hstep : step s (.getPolicy n) with
  | mk s1 resp =>
    have g1 : Grows s s1 := by have h := hg s (.getPolicy n); rw [hstep] at h; exact h
    dsimp only
    cases hp : get_alert_policy resp n with
    | error e =>
      exact ⟨g1, fun a h => Except.noConfusion h,
        fun e' h => ⟨[], .getFailed (.getPolicy n), rfl, rfl, rfl⟩⟩
    | ok op =>
      cases op with
      | some p => exact ⟨g1, fun a h => rfl, fun e' h => Except.noConfusion h⟩
      | none =>
        cases hstep2 : step s1 (.createPolicy n) with
        | mk s2 resp2 =>
          have g2 : Grows s1 s2 := by
            have h := hg s1 (.createPolicy n); rw [hstep2] at h; exact h
          dsimp only
          cases hc : create_alert_policy resp2 n with
          | error e =>
            exact ⟨g1.trans g2, fun a h => Except.noConfusion h,
              fun e' h => ⟨[.get (.getPolicy n) false],
                .createFailed (.createPolicy n), rfl, rfl, rfl⟩⟩
          | ok p => exact ⟨g1.trans g2, fun a h => rfl, fun e' h => Except.noConfusion h⟩

theorem ensureMonitor_abort (step : StubState → Req → StubState × HttpResponse)
    (hg : ∀ t r, Grows t (step t r).1) (url period location : String) (s : StubState) :
    AbortOut s (ensureMonitor step url period location s) := by
  unfold ensureMonitor
  cases hstep : step s (.getMonitor url) with
  | mk s1 resp =>
    have g1 : Grows s s1 := by have h := hg s (.getMonitor url); rw [hstep] at h; exact h
    dsimp only
    cases hp : get_synthetics_monitor resp url with
    | error e =>
      exact ⟨g1, fun a h => Except.noConfusion h,
        fun e' h => ⟨[], .getFailed (.getMonitor url), rfl, rfl, rfl⟩⟩
    | ok op =>
      cases op with
      | some m => exact ⟨g1, fun a h => rfl, fun e' h => Except.noConfusion h⟩
      | none =>
        cases hstep2 : step s1 (.createMonitor url url period [location]) with
        | mk s2 resp2 =>
          have g2 : Grows s1 s2 := by
            have h := hg s1 (.createMonitor url url period [location])
            rw [hstep2] at h; exact h
          dsimp only
          cases hc : create_synthetics_monitor resp2 url url period [location] with
          | error e =>
            exact ⟨g1.trans g2, fun a h => Except.noConfusion h,
              fun e' h => ⟨[.get (.getMonitor url) false],
                .createFailed (.createMonitor url url period [location]), rfl, rfl, rfl⟩⟩
          | ok m => exact ⟨g1.trans g2, fun a h => rfl, fun e' h => Except.noConfusion h⟩

theorem ensureCondition_abort (step : StubState → Req → StubState × HttpResponse)
    (hg : ∀ t r, Grows t (step t r).1) (mn uri pid : String) (s : StubState) :
    AbortOut s (ensureCondition step mn uri pid s) := by
  unfold ensureCondition
  cases hstep : step s (.getCondition mn) with
  | mk s1 resp =>
    have g1 : Grows s s1 := by have h := hg s (.getCondition mn); rw [hstep] at h; exact h
    dsimp only
    cases hp : get_alert_condition resp mn with
    | error e =>
      exact ⟨g1, fun a h => Except.noConfusion h,
        fun e' h => ⟨[], .getFailed (.getCondition mn), rfl, rfl, rfl⟩⟩
    | ok op =>
      cases op with
      | some c => exact ⟨g1, fun a h => rfl, fun e' h => Except.noConfusion h⟩
      | none =>
        cases hstep2 : step s1 (.createCondition mn uri pid) with
        | mk s2 resp2 =>
          have g2 : Grows s1 s2 := by
            have h := hg s1 (.createCondition mn uri pid); rw [hstep2] at h; exact h
          dsimp only
          cases hc : create_alert_condition resp2 mn uri pid with
          | error e =>
            exact ⟨g1.trans g2, fun a h => Except.noConfusion h,
              fun e' h => ⟨[.get (.getCondition mn) false],
                .createFailed (.createCondition mn uri pid), rfl, rfl, rfl⟩⟩
          | ok c => exact ⟨g1.trans g2, fun a h => rfl, fun e' h => Except.noConfusion h⟩

theorem ensureDestination_abort (step : StubState → Req → StubState × HttpResponse)
    (hg : ∀ t r, Grows t (step t r).1) (n rcpt : String) (s : StubState) :
    AbortOut s (ensureDestination step n rcpt s) := by
  unfold ensureDestination
  cases hstep : step s (.getDestination n) with
  | mk s1 resp =>
    have g1 : Grows s s1 := by have h := hg s (.getDestination n); rw [hstep] at h; exact h
    dsimp only
    cases hp : get_notification_destination resp n with
    | error e =>
      exact ⟨g1, fun a h => Except.noConfusion h,
        fun e' h => ⟨[], .getFailed (.getDestination n), rfl, rfl, rfl⟩⟩
    | ok op =>
      cases op with
      | some d => exact ⟨g1, fun a h => rfl, fun e' h => Except.noConfusion h⟩
      | none =>
        cases hstep2 : step s1 (.createDestination n rcpt) with
        | mk s2 resp2 =>
          have g2 : Grows s1 s2 := by
            have h := hg s1 (.createDestination n rcpt); rw [hstep2] at h; exact h
          dsimp only
          cases hc : create_notification_destination resp2 n rcpt with
          | error e =>
            exact ⟨g1.trans g2, fun a h => Except.noConfusion h,
              fun e' h => ⟨[.get (.getDestination n) false],
                .createFailed (.createDestination n rcpt), rfl, rfl, rfl⟩⟩
          | ok d => exact ⟨g1.trans g2, fun a h => rfl, fun e' h => Except.noConfusion h⟩

theorem ensureChannel_abort (step : StubState → Req → StubState × HttpResponse)
    (hg : ∀ t r, Grows t (step t r).1) (n did : String) (s : StubState) :
    AbortOut s (ensureChannel step n did s) := by
  unfold ensureChannel
  cases hstep : step s (.getChannel n) with
  | mk s1 resp =>
    have g1 : Grows s s1 := by have h := hg s (.getChannel n); rw [hstep] at h; exact h
    dsimp only
    cases hp : get_notification_channel resp n with
    | error e =>
      exact ⟨g1, fun a h => Except.noConfusion h,
        fun e' h => ⟨[], .getFailed (.getChannel n), rfl, rfl, rfl⟩⟩
    | ok op =>
      cases op with
      | some c => exact ⟨g1, fun a h => rfl, fun e' h => Except.noConfusion h⟩
      | none =>
        cases hstep2 : step s1 (.createChannel n did) with
        | mk s2 resp2 =>
          have g2 : Grows s1 s2 := by
            have h := hg s1 (.createChannel n did); rw [hstep2] at h; exact h
          dsimp only
          cases hc : create_notificaiton_channel resp2 n did with
          | error e =>
            exact ⟨g1.trans g2, fun a h => Except.noConfusion h,
              fun e' h => ⟨[.get (.getChannel n) false],
                .createFailed (.createChannel n did), rfl, rfl, rfl⟩⟩
          | ok c => exact ⟨g1.trans g2, fun a h => rfl, fun e' h => Except.noConfusion h⟩

theorem ensureWorkflow_abort (step : StubState → Req → StubState × HttpResponse)
    (hg : ∀ t r, Grows t (step t r).1) (inst pid cid : String) (s : StubState) :
    AbortOut s (ensureWorkflow step inst pid cid s) := by
  unfold ensureWorkflow
  cases hstep : step s (.getWorkflow inst) with
  | mk s1 resp =>
    have g1 : Grows s s1 := by have h := hg s (.getWorkflow inst); rw [hstep] at h; exact h
    dsimp only
    cases hp : get_ai_workflow resp inst with
    | error e =>
      exact ⟨g1, fun a h => Except.noConfusion h,
        fun e' h => ⟨[], .getFailed (.getWorkflow inst), rfl, rfl, rfl⟩⟩
    | ok op =>
      cases op with
      | some w => exact ⟨g1, fun a h => rfl, fun e' h => Except.noConfusion h⟩
      | none =>
        cases hstep2 : step s1 (.createWorkflow inst pid cid) with
        | mk s2 resp2 =>
          have g2 : Grows s1 s2 := by
            have h := hg s1 (.createWorkflow inst pid cid); rw [hstep2] at h; exact h
          dsimp only
          cases hc : create_ai_workflow resp2 inst pid cid with
          | error e =>
            exact ⟨g1.trans g2, fun a h => Except.noConfusion h,
              fun e' h => ⟨[.get (.getWorkflow inst) false],
                .createFailed (.createWorkflow inst pid cid), rfl, rfl, rfl⟩⟩
          | ok w => exact ⟨g1.trans g2, fun a h => rfl, fun e' h => Except.noConfusion h⟩

/-- The URL loop aborts at the first failing operation, over any
append-only remote. -/
theorem processUrls_abort (step : StubState → Req → StubState × HttpResponse)
    (hg : ∀ t r, Grows t (step t r).1) (period location pid : String) :
    ∀ (urls : List String) (s : StubState),
      AbortOut s (processUrls step period location pid urls s)
  | [], s => ⟨Grows.refl s, fun _ _ => rfl, fun e h => Except.noConfusion h⟩
  | url :: rest, s => by
    simp only [processUrls]
    have h1 := ensureMonitor_abort step hg url period location s
    cases hr1 : (ensureMonitor step url period location s).result with
    | error e =>
      dsimp only
      exact ⟨h1.grows, fun a h => Except.noConfusion h, fun e' h => h1.err e hr1⟩
    | ok monName =>
      dsimp only
      have h2 := ensureCondition_abort step hg monName url pid
        (ensureMonitor step url period location s).remote
      cases hr2 : (ensureCondition step monName url pid
          (ensureMonitor step url period location s).remote).result with
      | error e =>
        dsimp only
        exact ⟨h1.grows.trans h2.grows, fun a h => Except.noConfusion h,
          fun e' h => (h1.ok monName hr1).prepend (h2.err e hr2)⟩
      | ok u =>
        dsimp only
        have ih := processUrls_abort step hg period location pid rest
          (ensureCondition step monName url pid
            (ensureMonitor step url period location s).remote).remote
        refine ⟨h1.grows.trans (h2.grows.trans ih.grows), ?_, ?_⟩
        · intro a h
          exact ((h1.ok monName hr1).append (h2.ok u hr2)).append (ih.ok a h)
        · intro e h
          exact ((h1.ok monName hr1).append (h2.ok u hr2)).prepend (ih.err e h)

/-- The monitor-config loop aborts at the first failing operation, over
any append-only remote. -/
theorem processMonitorConfigs_abort (step : StubState → Req → StubState × HttpResponse)
    (hg : ∀ t r, Grows t (step t r).1) (instanceName pid period location : String) :
    ∀ (mcs : List MonitorConfig) (s : StubState),
      AbortOut s (processMonitorConfigs step instanceName pid period location mcs s)
  | [], s => ⟨Grows.refl s, fun _ _ => rfl, fun e h => Except.noConfusion h⟩
  | mc :: rest, s => by
    simp only [processMonitorConfigs]
    have h1 := ensureDestination_abort step hg (destName instanceName) mc.recipient s
    cases hr1 : (ensureDestination step (destName instanceName) mc.recipient s).result with
    | error e =>
      dsimp only
      exact ⟨h1.grows, fun a h => Except.noConfusion h, fun e' h => h1.err e hr1⟩
    | ok dest =>
      dsimp only
      have h2 := ensureChannel_abort step hg (destName instanceName) dest.id
        (ensureDestination step (destName instanceName) mc.recipient s).remote
      cases hr2 : (ensureChannel step (destName instanceName) dest.id
          (ensureDestination step (destName instanceName) mc.recipient s).remote).result with
      | error e =>
        dsimp only
        exact ⟨h1.grows.trans h2.grows, fun a h => Except.noConfusion h,
          fun e' h => (h1.ok dest hr1).prepend (h2.err e hr2)⟩
      | ok chan =>
        dsimp only
        have h3 := ensureWorkflow_abort step hg instanceName pid chan.id
          (ensureChannel step (destName instanceName) dest.id
            (ensureDestination step (destName instanceName) mc.recipient s).remote).remote
        cases hr3 : (ensureWorkflow step instanceName pid chan.id
            (ensureChannel step (destName instanceName) dest.id
              (ensureDestination step (destName instanceName) mc.recipient
                s).remote).remote).result with
        | error e =>
          dsimp only
          exact ⟨h1.grows.trans (h2.grows.trans h3.grows),
            fun a h => Except.noConfusion h,
            fun e' h => ((h1.ok dest hr1).append (h2.ok chan hr2)).prepend (h3.err e hr3)⟩
        | ok w =>
          dsimp only
          have h4 := processUrls_abort step hg period location pid mc.urls
            (ensureWorkflow step instanceName pid chan.id
              (ensureChannel step (destName instanceName) dest.id
                (ensureDestination step (destName instanceName) mc.recipient
                  s).remote).remote).remote
          cases hr4 : (processUrls step period location pid mc.urls
              (ensureWorkflow step instanceName pid chan.id
                (ensureChannel step (destName instanceName) dest.id
                  (ensureDestination step (destName instanceName) mc.recipient
                    s).remote).remote).remote).result with
          | error e =>
            dsimp only
            exact ⟨h1.grows.trans (h2.grows.trans (h3.grows.trans h4.grows)),
              fun a h => Except.noConfusion h,
              fun e' h => (((h1.ok dest hr1).append (h2.ok chan hr2)).append
                (h3.ok w hr3)).prepend (h4.err e hr4)⟩
          | ok u =>
            dsimp only
            have ih := processMonitorConfigs_abort step hg instanceName pid period location
              rest (processUrls step period location pid mc.urls
                (ensureWorkflow step instanceName pid chan.id
                  (ensureChannel step (destName instanceName) dest.id
                    (ensureDestination step (destName instanceName) mc.recipient
                      s).remote).remote).remote).remote
            refine ⟨h1.grows.trans (h2.grows.trans (h3.grows.trans
              (h4.grows.trans ih.grows))), ?_, ?_⟩
            · intro a h
              exact ((((h1.ok dest hr1).append (h2.ok chan hr2)).append
                (h3.ok w hr3)).append (h4.ok u hr4)).append (ih.ok a h)
            · intro e h
              exact ((((h1.ok dest hr1).append (h2.ok chan hr2)).append
                (h3.ok w hr3)).append (h4.ok u hr4)).prepend (ih.err e h)

/-- A whole orchestration run aborts at the first failing operation, over
any append-only remote. -/
theorem create_alert_workflow_abort (step : StubState → Req → StubState × HttpResponse)
    (hg : ∀ t r, Grows t (step t r).1) (cfg : OrchConfig) (s : StubState) :
    AbortOut s (create_alert_workflow step cfg s) := by
  simp only [create_alert_workflow]
  have h1 := ensurePolicy_abort step hg (policyName cfg.instance_name) s
  cases hr1 : (ensurePolicy step (policyName cfg.instance_name) s).result with
  | error e =>
    dsimp only
    exact ⟨h1.grows, fun a h => Except.noConfusion h, fun e' h => h1.err e hr1⟩
  | ok policy =>
    dsimp only
    have h2 := processMonitorConfigs_abort step hg cfg.instance_name policy.id
      cfg.period cfg.location cfg.monitors
      (ensurePolicy step (policyName cfg.instance_name) s).remote
    refine ⟨h1.grows.trans h2.grows, ?_, ?_⟩
    · intro a h
      exact (h1.ok policy hr1).append (h2.ok a h)
    · intro e h
      exact (h1.ok policy hr1).prepend (h2.err e h)

/-- The stub remote only ever appends. -/
theorem stubStep_grows (t : StubState) (r : Req) : Grows t (stubStep t r).1 := by
  cases r <;> refine ⟨?_, ?_, ?_, ?_, ?_, ?_⟩ <;>
    first
      | exact ⟨_, rfl⟩
      | exact ⟨[], by simp [stubStep]⟩

/-- The destination-create-fails remote only ever appends. -/
theorem stubStepFailDestination_grows (t : StubState) (r : Req) :
    Grows t (stubStepFailDestination t r).1 := by
  cases r <;> first | exact Grows.refl t | exact stubStep_grows t _

/-- The destination-create-errors remote only ever appends. -/
theorem stubStepErrorsDestination_grows (t : StubState) (r : Req) :
    Grows t (stubStepErrorsDestination t r).1 := by
  cases r <;> first | exact Grows.refl t | exact stubStep_grows t _

/-- C8: for every append-only remote, every configuration, every
starting state and every exception — i.e. whichever get or create
operation raises, at any position in the run, including inside the URL
loop — an erroring orchestration run has a trace that ends at the failing
operation with no subsequent get or create step (`TraceAborts`), and its
final remote extends the starting one, so every resource created before
the failure is left in place and nothing is rolled back (`Grows`).  The
two remaining conjuncts instantiate this reachably: a destination create
answered with HTTP 500, and with HTTP 200 plus a top-level errors array,
each abort the run after exactly four events, keeping the policy created
beforehand and creating nothing else. -/
theorem claim_C8_any_failure_aborts_without_rollback :
    (∀ (step : StubState → Req → StubState × HttpResponse),
      (∀ t r, Grows t (step t r).1) →
      ∀ (cfg : OrchConfig) (s : StubState) (e : PyError),
        (create_alert_workflow step cfg s).result = .error e →
        TraceAborts (create_alert_workflow step cfg s).trace ∧
        Grows s (create_alert_workflow step cfg s).remote) ∧
    (∀ (instName rcpt : String) (urls : List String) (rest : List MonitorConfig)
       (period location : String),
      (create_alert_workflow stubStepFailDestination
          ⟨instName, ⟨rcpt, urls⟩ :: rest, period, location⟩ emptyStub).result
        = .error (.nerdGraphHttpError "Internal Server Error") ∧
      (create_alert_workflow stubStepFailDestination
          ⟨instName, ⟨rcpt, urls⟩ :: rest, period, location⟩ emptyStub).trace
        = [.get (.getPolicy (policyName instName)) false,
           .create (.createPolicy (policyName instName)),
           .get (.getDestination (destName instName)) false,
           .createFailed (.createDestination (destName instName) rcpt)] ∧
      (create_alert_workflow stubStepFailDestination
          ⟨instName, ⟨rcpt, urls⟩ :: rest, period, location⟩ emptyStub).remote
        = ⟨[⟨"id0", policyName instName, ""⟩], [], [], [], [], [], 1⟩) ∧
    (∀ (instName rcpt : String) (urls : List String) (rest : List MonitorConfig)
       (period location : String),
      (create_alert_workflow stubStepErrorsDestination
          ⟨instName, ⟨rcpt, urls⟩ :: rest, period, location⟩ emptyStub).result
        = .error (.nerdGraphResponseError
            (.obj [("errors", .arr [.obj [("message", .str "boom")]])])) ∧
      (create_alert_workflow stubStepErrorsDestination
          ⟨instName, ⟨rcpt, urls⟩ :: rest, period, location⟩ emptyStub).trace
        = [.get (.getPolicy (policyName instName)) false,
           .create (.createPolicy (policyName instName)),
           .get (.getDestination (destName instName)) false,
           .createFailed (.createDestination (destName instName) rcpt)] ∧
      (create_alert_workflow stubStepErrorsDestination
          ⟨instName, ⟨rcpt, urls⟩ :: rest, period, location⟩ emptyStub).remote
        = ⟨[⟨"id0", policyName instName, ""⟩], [], [], [], [], [], 1⟩) := by
  refine ⟨?_, ?_, ?_⟩
  · intro step hg cfg s e h
    have ha := create_alert_workflow_abort step hg cfg s
    exact ⟨ha.err e h, ha.grows⟩
  · intro instName rcpt urls rest period location
    refine ⟨?_, ?_, ?_⟩ <;> with_unfolding_all rfl
  · intro instName rcpt urls rest period location
    refine ⟨?_, ?_, ?_⟩ <;> with_unfolding_all rfl

/-- Witness for C8: the general abort statement applied at the
destination-create-fails remote, a concrete configuration, the empty
starting state and the concrete HTTP-500 exception. -/
theorem claim_C8_any_failure_aborts_without_rollback_witness :
    TraceAborts (create_alert_workflow stubStepFailDestination
      ⟨"demo", [⟨"a@b.com", ["https://u"]⟩], "p", "l"⟩ emptyStub).trace ∧
    Grows emptyStub (create_alert_workflow stubStepFailDestination
      ⟨"demo", [⟨"a@b.com", ["https://u"]⟩], "p", "l"⟩ emptyStub).remote :=
  claim_C8_any_failure_aborts_without_rollback.1 stubStepFailDestination
    stubStepFailDestination_grows ⟨"demo", [⟨"a@b.com", ["https://u"]⟩], "p", "l"⟩
    emptyStub (.nerdGraphHttpError "Internal Server Error") (by with_unfolding_all rfl)

end TutorNewRelic
